import Mathlib

/-! # pkcsep11_session: session filter, session actions and the endpoint orchestrator

A shallow embedding of `usr/sbin/pkcsep11_session/pkcsep11_session.c`.

* C integers are `Nat`/`Int`; `uint_32` values are reduced `% 2 ^ 32` where the
  program truncates.
* The file-scope variables that `do_ParseArgs` and `main` set once are gathered in
  `Globals`; the two that the actions update (`count`, `error`) live in `State`
  next to the chronological list of the calls made to the collaborators and of
  the lines printed.
* The collaborators (C library date functions, EP11 host library, token store,
  `/proc`, sysfs) are function-valued fields: every theorem holds for all of them.
-/

namespace Pkcsep11Session

/-! ## Return codes and sizes -/

/-- A PKCS #11 return value `CK_RV` (an unsigned long). -/
abbrev CK_RV := Nat

/-- Modelled from the spec: `pkcs11types.h` is not among the sources; the value
is the one of the PKCS #11 standard. -/
def CKR_OK : CK_RV := 0x00

/-- Modelled from the spec: `pkcs11types.h` is not among the sources; the value
is the one of the PKCS #11 standard. -/
def CKR_FUNCTION_FAILED : CK_RV := 0x06

/-- Modelled from the spec: `pkcs11types.h` is not among the sources; the value
is the one of the PKCS #11 standard. -/
def CKR_ARGUMENTS_BAD : CK_RV := 0x07

/-- Modelled from the spec: `pkcs11types.h` is not among the sources; the value
is the one of the PKCS #11 standard. -/
def CKR_SESSION_CLOSED : CK_RV := 0xB0

/-- The macro `EP11_SESSION_ID_SIZE`. -/
def EP11_SESSION_ID_SIZE : Nat := 16

/-- The macro `MASK_EP11`. -/
def MASK_EP11 : Nat := 0x04000000

/-- The terminating byte of a C string. -/
def NUL : Char := Char.ofNat 0

/-- The C string held in a buffer: the bytes before the first NUL. -/
def cstr (buf : List Char) : List Char :=
  buf.takeWhile (fun c => c != NUL)

/-! ## Dates -/

/-- The `struct tm` of `<time.h>`. -/
structure tm where
  tm_sec : Int
  tm_min : Int
  tm_hour : Int
  tm_mday : Int
  tm_mon : Int
  tm_year : Int
  tm_wday : Int
  tm_yday : Int
  tm_isdst : Int
deriving DecidableEq, Repr

/-- The result of `memset(&tm, 0, sizeof(tm))`. -/
def tm_zero : tm :=
  { tm_sec := 0, tm_min := 0, tm_hour := 0, tm_mday := 0, tm_mon := 0,
    tm_year := 0, tm_wday := 0, tm_yday := 0, tm_isdst := 0 }

/-- The date functions of the C library, as the program calls them.
`strptime s fmt tm` is `none` for a NULL result and otherwise the filled
`struct tm` with the unparsed rest of `s` (what the returned pointer points at).
`mktime` is the calendar time of a broken-down time in the local time zone, `-1`
when it cannot be represented. -/
structure Libc where
  strptime : List Char → List Char → tm → Option (tm × List Char)
  mktime : tm → Int

/-- The format string `"%Y/%m/%d"`. -/
def date_format : List Char := ['%', 'Y', '/', '%', 'm', '/', '%', 'd']

/-- The sign of `difftime(t1, t0)`: the C function returns `t1 - t0` as a double,
the program only tests `<= 0` on it, and the conversion keeps the sign of the
difference of two `time_t` values. -/
def difftime (t1 t0 : Int) : Int := t1 - t0

/-- The PKCS #11 `CK_DATE`: three character arrays of 4, 2 and 2 bytes, none of
them NUL terminated. -/
structure CK_DATE where
  year : Char × Char × Char × Char
  month : Char × Char
  day : Char × Char
deriving DecidableEq, Repr

/-- The buffer `temp` of `filter_session` after the three `memcpy`, the two
slashes and the terminator have been stored. -/
def date_temp (date : CK_DATE) : List Char :=
  [date.year.1, date.year.2.1, date.year.2.2.1, date.year.2.2.2, '/',
   date.month.1, date.month.2, '/', date.day.1, date.day.2, NUL]

/-- The C function `memcmp` on the first `n` bytes of two arrays: zero exactly when they
agree, else the difference of the first two bytes that differ. The last
equation is a read past the end of an array; it is not reached when both
arrays hold `n` bytes. -/
def memcmp : List Nat → List Nat → Nat → Int
  | _, _, 0 => 0
  | a :: as, b :: bs, n + 1 => if a = b then memcmp as bs n else (a : Int) - (b : Int)
  | _, _, _ + 1 => 0

/-! ## The variables set at start-up -/

/-- The file-scope variables written by `do_ParseArgs` and `main` only.
`force` and `filter_sess_id_set` are the C ints 0/1; `filter_date = -1` and
`filter_pid = 0` mean that the filter is not set. `dll_m_add_module` and
`dll_m_rm_module` say whether the function pointer is non-NULL. -/
structure Globals where
  force : Bool
  filter_date : Int
  filter_pid : Int
  filter_sess_id : List Nat
  filter_sess_id_set : Bool
  lib_version_major : Nat
  dll_m_add_module : Bool
  dll_m_rm_module : Bool
deriving DecidableEq, Repr

/-- The initial values of the file-scope variables. -/
def Globals.init : Globals :=
  { force := false, filter_date := -1, filter_pid := 0,
    filter_sess_id := List.replicate 16 0, filter_sess_id_set := false,
    lib_version_major := 0, dll_m_add_module := false, dll_m_rm_module := false }

/-- The `-date` branch of `do_ParseArgs` on the argument that follows `-date`:
`none` when the program prints "Date parameter is not valid!" and returns -1,
else the new value of `filter_date`. -/
def do_ParseArgs_date (L : Libc) (arg : List Char) : Option Int :=
  if arg.length = 0 then none
  else
    match L.strptime arg date_format tm_zero with
    | none => none
    | some (tmv, p) =>
      if p ≠ [] then none
      else
        let filter_date := L.mktime tmv
        if filter_date = -1 then none else some filter_date

/-- The C function `filter_session`. -/
def filter_session (L : Libc) (g : Globals) (session_id : List Nat)
    (session_id_len : Nat) (date : CK_DATE) (pid : Int) : Bool :=
  if g.filter_sess_id_set then
    if session_id_len = EP11_SESSION_ID_SIZE ∧
        memcmp session_id g.filter_sess_id session_id_len = 0 then true
    else false
  else if g.filter_date ≠ -1 then
    match L.strptime (cstr (date_temp date)) date_format tm_zero with
    | none => false
    | some (tmv, p) =>
      if p ≠ [] then false
      else
        let t := L.mktime tmv
        if t = -1 then false
        else if difftime t g.filter_date ≤ 0 then true
        else false
  else if g.filter_pid ≠ 0 then
    if pid = g.filter_pid then true else false
  else true

/-! ## A reference C library

The theorems quantify over every `Libc`. The instance below follows the GNU C
library for the one format the program uses and takes UTC as the local time
zone; it serves to evaluate the definitions on concrete records. -/

/-- The C function `isdigit` in the C locale. -/
def isdigit (c : Char) : Bool := decide (48 ≤ c.toNat ∧ c.toNat ≤ 57)

/-- The value of a decimal digit. -/
def digit_val (c : Char) : Nat := c.toNat - 48

/-- The blanks that `get_number` of strptime skips. -/
def skip_blanks : List Char → List Char
  | ' ' :: rest => skip_blanks rest
  | rp => rp

/-- The loop of `get_number` after its first digit: at most `n` further digits,
read while `val * 10 <= hi` and a digit follows. -/
def get_number_loop (hi : Nat) : Nat → Nat → List Char → Nat × List Char
  | 0, val, rp => (val, rp)
  | _ + 1, val, [] => (val, [])
  | n + 1, val, c :: rest =>
    if val * 10 ≤ hi ∧ isdigit c = true then
      get_number_loop hi n (val * 10 + digit_val c) rest
    else (val, c :: rest)

/-- The macro `get_number (lo, hi, n)` of strptime: blanks are skipped, a digit
is required, up to `n` digits are read and the value must lie in `lo..hi`. -/
def get_number (lo hi n : Nat) (rp : List Char) : Option (Nat × List Char) :=
  match skip_blanks rp with
  | [] => none
  | c :: rest =>
    if isdigit c = true then
      let r := get_number_loop hi (n - 1) (digit_val c) rest
      if r.1 < lo ∨ hi < r.1 then none else some r
    else none

/-- A literal character of the format: it must be the next input character. -/
def match_char (ch : Char) : List Char → Option (List Char)
  | c :: rest => if c = ch then some rest else none
  | [] => none

/-- The C function `strptime` for the format `"%Y/%m/%d"` (`none` for any other format):
year 0..9999 in up to four digits, month 1..12 and day 1..31 in up to two. -/
def ref_strptime (s fmt : List Char) (t : tm) : Option (tm × List Char) :=
  if fmt = date_format then
    (get_number 0 9999 4 s).bind fun y =>
    (match_char '/' y.2).bind fun r1 =>
    (get_number 1 12 2 r1).bind fun m =>
    (match_char '/' m.2).bind fun r2 =>
    (get_number 1 31 2 r2).bind fun d =>
    some ({ t with tm_year := (y.1 : Int) - 1900, tm_mon := (m.1 : Int) - 1,
                   tm_mday := (d.1 : Int) }, d.2)
  else none

/-- Days from 1970-01-01 to the first day of month `m` (1..12) of year `y` in
the proleptic Gregorian calendar. -/
def days_to_month (y m : Int) : Int :=
  let y1 := if m ≤ 2 then y - 1 else y
  let mp := if m ≤ 2 then m + 9 else m - 3
  365 * y1 + y1 / 4 - y1 / 100 + y1 / 400 + (153 * mp + 2) / 5 - 719468

/-- The C function `mktime` in the time zone UTC: out-of-range months and days
are carried over as the C standard asks. -/
def ref_mktime (t : tm) : Int :=
  let y := t.tm_year + 1900 + t.tm_mon / 12
  let m := t.tm_mon % 12 + 1
  (days_to_month y m + (t.tm_mday - 1)) * 86400
    + t.tm_hour * 3600 + t.tm_min * 60 + t.tm_sec

/-- The reference C library. -/
def ref_libc : Libc := { strptime := ref_strptime, mktime := ref_mktime }

/-! ## C library functions used by the sysfs scan -/

/-- The C function `isspace` in the C locale. -/
def isspace (c : Char) : Bool := decide (c.toNat = 32 ∨ (9 ≤ c.toNat ∧ c.toNat ≤ 13))

/-- The C function `isxdigit` in the C locale. -/
def isxdigit (c : Char) : Bool :=
  decide ((48 ≤ c.toNat ∧ c.toNat ≤ 57) ∨ (97 ≤ c.toNat ∧ c.toNat ≤ 102) ∨
    (65 ≤ c.toNat ∧ c.toNat ≤ 70))

/-- The value of a hexadecimal digit. -/
def xdigit_val (c : Char) : Nat :=
  if c.toNat ≤ 57 then c.toNat - 48
  else if 97 ≤ c.toNat then c.toNat - 87
  else c.toNat - 55

/-- The number written by a string of hexadecimal digits. -/
def hex_value (ds : List Char) : Nat :=
  ds.foldl (fun v c => 16 * v + xdigit_val c) 0

/-- The call `sscanf(s, "%x", &val)` (`w = 32`) or `sscanf(s, "%lx", &val)`
(`w = 64`) as the GNU C library performs it: `none` when the call does not
return 1, else the value stored. White space is skipped, a sign and a `0x`
are accepted, the digits are converted as `strtoul` does (`ULONG_MAX` on
overflow, negation modulo `2 ^ 64`) and the result is cut to `w` bits. -/
def sscanf_hex (w : Nat) (s : List Char) : Option Nat :=
  let s1 := s.dropWhile isspace
  let neg := match s1 with
    | '-' :: _ => true
    | _ => false
  let s2 := match s1 with
    | '-' :: r => r
    | '+' :: r => r
    | _ => s1
  let zero := match s2 with
    | '0' :: 'x' :: _ => true
    | '0' :: 'X' :: _ => true
    | _ => false
  let s3 := match s2 with
    | '0' :: 'x' :: r => r
    | '0' :: 'X' :: r => r
    | _ => s2
  let digits := s3.takeWhile isxdigit
  if zero = false ∧ digits = [] then none
  else
    let v := hex_value digits
    let ul := if 2 ^ 64 ≤ v then 2 ^ 64 - 1 else if neg then (2 ^ 64 - v) % 2 ^ 64 else v
    some (ul % 2 ^ w)

/-- The call `strtok(s, delim)` for a one-character delimiter set: `none` for
NULL, else the token and the position saved for the next call (the text after
the delimiter that ended the token). -/
def strtok (s : List Char) (delim : Char) : Option (List Char × List Char) :=
  match s.dropWhile (fun c => c == delim) with
  | [] => none
  | c :: r =>
    some ((c :: r).takeWhile (fun x => x != delim),
          ((c :: r).dropWhile (fun x => x != delim)).drop 1)

/-- An unanchored regular expression search: does `p` hold at some position of
the string (the empty rest included)? -/
def regex_search (p : List Char → Bool) : List Char → Bool
  | [] => p []
  | c :: r => p (c :: r) || regex_search p r

/-- The pattern `REGEX_CARD_PATTERN`, `card[0-9a-fA-F]+`, matched at the head of the string. -/
def card_pattern_at : List Char → Bool
  | 'c' :: 'a' :: 'r' :: 'd' :: x :: _ => isxdigit x
  | _ => false

/-- The pattern `REGEX_SUB_CARD_PATTERN`, `[0-9a-fA-F]+\.[0-9a-fA-F]+`, matched at the head
of the string: a non-empty run of hexadecimal digits, a dot, a hexadecimal
digit. -/
def sub_card_pattern_at : List Char → Bool
  | [] => false
  | c :: r =>
    isxdigit c &&
      (match (c :: r).dropWhile isxdigit with
       | '.' :: d :: _ => isxdigit d
       | _ => false)

/-- The macro `REGEX_CARD_PATTERN`. -/
def REGEX_CARD_PATTERN : List Char := "card[0-9a-fA-F]+".toList

/-- The macro `REGEX_SUB_CARD_PATTERN`. -/
def REGEX_SUB_CARD_PATTERN : List Char := "[0-9a-fA-F]+\\.[0-9a-fA-F]+".toList

/-- The call `regexec(&reg_buf, name, 1, pmatch, 0) == 0` for the two patterns
the program compiles (with `REG_EXTENDED`): an unanchored search. -/
def regexec (pattern name : List Char) : Bool :=
  if pattern = REGEX_CARD_PATTERN then regex_search card_pattern_at name
  else if pattern = REGEX_SUB_CARD_PATTERN then regex_search sub_card_pattern_at name
  else false

/-- The characters `fgets` stores for a buffer with room for `n` characters
and the terminator: it stops after a newline. -/
def fgets : Nat → List Char → List Char
  | 0, _ => []
  | _ + 1, [] => []
  | n + 1, c :: cs => if c = '\n' then [c] else c :: fgets n cs

/-- The macro `SYSFS_DEVICES_AP`. -/
def SYSFS_DEVICES_AP : List Char := "/sys/devices/ap/".toList

/-! ## Endpoints, modules and target handles -/

/-- The packed struct `ep11_target_t`: `format`, `length` and the 512 `apqns`
are C shorts. -/
structure ep11_target_t where
  format : Int
  length : Int
  apqns : List Int
deriving DecidableEq, Repr

/-- A C short passed where a `uint_32` is expected. -/
def short_to_uint_32 (x : Int) : Nat := (x % 2 ^ 32).toNat

/-- A `uint_32` stored into a C short. -/
def uint_32_to_short (x : Nat) : Int :=
  if x % 65536 < 32768 then ((x % 65536 : Nat) : Int) else ((x % 65536 : Nat) : Int) - 65536

/-- The two module descriptor versions `XCP_MOD_VERSION_1` and `XCP_MOD_VERSION_2`. -/
inductive XCP_MOD_VERSION where
  | XCP_MOD_VERSION_1
  | XCP_MOD_VERSION_2
deriving DecidableEq, Repr

/-- Modelled from the spec: `struct XCP_Module` and the macro
`XCPTGTMASK_SET_DOM` are declared in the EP11 host library header, which is not
among the sources. The descriptor holds a version tag, flags (only
`XCP_MFL_MODULE` is ever set), the module number and the domain bitmask, given
here by the list of the domains whose bit is set; every other field is zero. -/
structure XCP_Module where
  version : XCP_MOD_VERSION
  flags_XCP_MFL_MODULE : Bool
  module_nr : Nat
  domainmask : List Nat
deriving DecidableEq, Repr

/-- The value of a `target_t` variable as the handlers pass it on: the handle
that `m_add_module` wrote, or the address of a target list (given by the
list there). -/
inductive target_t where
  | handle (h : Nat)
  | target_list (t : ep11_target_t)
deriving DecidableEq, Repr

/-- The two extended queries of `m_get_xcp_info` that `status_handler` makes. -/
inductive XcpQuery where
  | CK_IBM_XCPQ_EXT_CAPS
  | CK_IBM_XCPQ_EXT_CAPLIST
deriving DecidableEq, Repr

/-- The five attributes that `process_session_obj` reads from a session object. -/
structure SessionAttrs where
  pin_blob : List Nat
  session_id : List Nat
  ep11_targets : ep11_target_t
  pid : Int
  date : CK_DATE
deriving DecidableEq, Repr

/-! ## Observable behaviour -/

/-- The lines the program prints, one constructor per format string, with the
values that are formatted. -/
inductive Msg where
  /-- The text `WARNING: Logout failed for adapter %02X.%04X: 0x%lx [%s]`. -/
  | logout_failed (adapter domain : Nat) (rc : CK_RV)
  /-- The text `Failed to open file '%s'`. -/
  | failed_to_open_file (fname : List Char)
  /-- The text `Failed to read from file '%s'`. -/
  | failed_to_read_file (fname : List Char)
  /-- The text `Failed to compile regular expression '%s'`. -/
  | failed_to_compile_regex (pattern : List Char)
  /-- The text `Directory %s is not available`. -/
  | directory_not_available (fname : List Char)
  /-- The session id in hexadecimal followed by a colon. -/
  | session_id (id : List Nat)
  /-- The text `Pid: %u (still running)`. -/
  | pid_still_running (pid : Int)
  /-- The text `Pid: %u`. -/
  | pid (pid : Int)
  /-- The text `Date: %.4s/%.2s/%.2s`. -/
  | date (date : CK_DATE)
  /-- The text `Session is not logged out, process %u is still running`. -/
  | not_logged_out_still_running (pid : Int)
  /-- The text `handle_all_ep11_cards() rc = 0x%02lx [%s]`. -/
  | handle_all_ep11_cards_rc (rc : CK_RV)
  /-- The text `WARNING: Not all APQNs were successfully logged out.` -/
  | not_all_apqns_logged_out
  /-- The text `Session is not deleted. Specify -force to delete it anyway.` -/
  | session_not_deleted
  /-- The text `C_DestroyObject() rc = 0x%02lx [%s]`. -/
  | C_DestroyObject_rc (rc : CK_RV)
  /-- The text `Session logged out successfully`. -/
  | logged_out_successfully
  /-- The text `Session deleted due to -force option`. -/
  | deleted_due_to_force
  /-- The text `C_GetAttributeValue() rc = 0x%02lx [%s]`. -/
  | C_GetAttributeValue_rc (rc : CK_RV)
  /-- The text `C_FindObjectsInit() rc = 0x%02lx [%s]`. -/
  | C_FindObjectsInit_rc (rc : CK_RV)
  /-- The text `C_FindObjects() rc = 0x%02lx [%s]`. -/
  | C_FindObjects_rc (rc : CK_RV)
  /-- The text `List of EP11 sessions:`. -/
  | list_of_sessions
  /-- The text `%lu EP11-Sessions displayed`. -/
  | sessions_displayed (count : Nat)
  /-- The text `%lu EP11-Sessions logged out`. -/
  | sessions_logged_out (count : Nat)
  /-- The text `dll_m_add_module (EXT_CAPLIST) failed: rc=0x%lx`. -/
  | add_module_failed (rc : Nat)
  /-- The text `APQN %02x.%04x:`. -/
  | apqn (adapter domain : Nat)
  /-- The text `dll_m_get_xcp_info (EXT_CAPS) failed: rc=0x%lx`. -/
  | ext_caps_failed (rc : CK_RV)
  /-- The text `Failed to allocate memory`. -/
  | failed_to_allocate
  /-- The text `dll_m_get_xcp_info (EXT_CAPLIST) failed: rc=0x%lx`. -/
  | ext_caplist_failed (rc : CK_RV)
  /-- The text `Max Sessions: %u`. -/
  | max_sessions (n : Nat)
  /-- The text `Available Sessions: %u`. -/
  | available_sessions (n : Nat)
  /-- The text `Information not available`. -/
  | information_not_available
deriving DecidableEq, Repr

/-- What the program does to the outside: a line printed, or a call of a
collaborator with its arguments and its answer. In `m_rm_module` the descriptor
is `none` when the variable `module` was never written. -/
inductive Event where
  | stdout (m : Msg)
  | stderr (m : Msg)
  | m_add_module (module : XCP_Module) (rc : Nat) (target : Nat)
  | m_Logout (pin_blob : Option (List Nat)) (target : target_t) (rc : CK_RV)
  | m_rm_module (module : Option XCP_Module) (target : target_t)
  | m_get_xcp_info (query : XcpQuery) (target : target_t) (rc : CK_RV)
  | calloc (size : Nat) (ok : Bool)
  | free
  | C_GetAttributeValue (session obj : Nat) (rc : CK_RV)
  | C_DestroyObject (session obj : Nat) (rc : CK_RV)
  | C_FindObjectsInit (session : Nat) (rc : CK_RV)
  | C_FindObjects (session : Nat) (rc : CK_RV) (objs : List Nat)
  | C_FindObjectsFinal (session : Nat)
deriving DecidableEq, Repr

/-- The part of the program state that changes while sessions are processed:
the events so far, oldest first, and the file-scope variables `count` and
`error`. `calls` belongs to no C variable: it is written only by `traced`, which
records the invocations of a handler. -/
structure State where
  trace : List Event
  count : Nat
  error : CK_RV
  calls : List (Nat × Nat × CK_RV)
deriving DecidableEq, Repr

/-- The state when an action starts. -/
def State.init : State := { trace := [], count := 0, error := CKR_OK, calls := [] }

/-- One more event. -/
def State.emit (s : State) (e : Event) : State := { s with trace := s.trace ++ [e] }

/-- The collaborators. The EP11 host library and the token store answer as a
function of the events so far and of the arguments. `proc_stat pid` says whether
`open("/proc/<pid>/stat")` succeeds; `opendir` gives the entries in the order
`readdir` returns them (`none`: the directory cannot be opened); `fopen` gives
the content of a file (`none`: it cannot be opened; an empty content also
stands for a failing read); `regcomp` says whether a pattern compiles.
`C_FindObjects` is the finite sequence of answers of the token store to the
successive calls, after which it answers `CKR_OK` with no object. The two
`CK_IBM_XCPXQ` numbers are constants of the host library header. -/
structure Env where
  libc : Libc
  getpid : Int
  proc_stat : Int → Bool
  regcomp : List Char → Bool
  opendir : List Char → Option (List (List Char))
  fopen : List Char → Option (List Char)
  m_add_module : List Event → XCP_Module → Nat × Nat
  m_Logout : List Event → Option (List Nat) → target_t → CK_RV
  m_get_xcp_info : List Event → XcpQuery → target_t → Nat → CK_RV × Nat × List Nat
  calloc : List Event → Nat → Bool
  CK_IBM_XCPXQ_MAX_SESSIONS : Nat
  CK_IBM_XCPXQ_AVAIL_SESSIONS : Nat
  C_GetAttributeValue : List Event → Nat → Nat → CK_RV × SessionAttrs
  C_DestroyObject : List Event → Nat → Nat → CK_RV
  C_FindObjectsInit : List Event → Nat → CK_RV
  C_FindObjects : List (CK_RV × List Nat)

/-- The type `adapter_handler_t`; `handler_data` is NULL (`none`) or points to
bytes. -/
abbrev adapter_handler_t := Nat → Nat → Option (List Nat) → State → CK_RV × State

/-- The type `handler_t`. -/
abbrev handler_t :=
  Nat → Nat → List Nat → Nat → List Nat → Nat → ep11_target_t → Int → CK_DATE →
    State → CK_RV × State

/-- A handler that also records each of its invocations, with the result, in
`calls`. -/
def traced (h : adapter_handler_t) : adapter_handler_t :=
  fun adapter domain handler_data s =>
    let r := h adapter domain handler_data s
    (r.1, { r.2 with calls := s.calls ++ [(adapter, domain, r.1)] })

/-- The lines of `main` that look up `m_add_module` and `m_rm_module`: unless
both symbols are found (`add`, `rm`), both pointers are set to NULL. -/
def main_load_modules (g : Globals) (add rm : Bool) : Globals :=
  if add = false ∨ rm = false then
    { g with dll_m_add_module := false, dll_m_rm_module := false }
  else { g with dll_m_add_module := add, dll_m_rm_module := rm }

/-- The C function `is_process_running`. -/
def is_process_running (E : Env) (pid : Int) : Bool :=
  if E.proc_stat pid = false then false else true

/-! ## The per-endpoint handlers -/

/-- The module descriptor both handlers build for an endpoint. -/
def make_module (g : Globals) (adapter domain : Nat) : XCP_Module :=
  { version := if g.lib_version_major ≥ 3 then XCP_MOD_VERSION.XCP_MOD_VERSION_2
               else XCP_MOD_VERSION.XCP_MOD_VERSION_1,
    flags_XCP_MFL_MODULE := true,
    module_nr := adapter,
    domainmask := [domain] }

/-- The target list both handlers build when `m_add_module` is not available. -/
def make_target_list (adapter domain : Nat) : ep11_target_t :=
  { format := 0, length := 1,
    apqns := [uint_32_to_short adapter, uint_32_to_short domain] ++ List.replicate 510 0 }

/-- The C function `logout_handler` from the call of `m_Logout` on: `module` is the
descriptor registered (`none` when the variable was never written) and
`target` the value of the variable `target`. The length argument of `m_Logout`
is the constant `XCP_PINBLOB_BYTES` and is left out. -/
def logout_handler_tail (E : Env) (g : Globals) (adapter domain : Nat)
    (handler_data : Option (List Nat)) (module : Option XCP_Module) (target : target_t)
    (s : State) : CK_RV × State :=
  let rc := E.m_Logout s.trace handler_data target
  let s1 := s.emit (Event.m_Logout handler_data target rc)
  let s2 :=
    if rc ≠ CKR_OK ∧ rc ≠ CKR_SESSION_CLOSED then
      { s1.emit (Event.stderr (Msg.logout_failed adapter domain rc)) with error := rc }
    else s1
  let s3 := if g.dll_m_rm_module then s2.emit (Event.m_rm_module module target) else s2
  (CKR_OK, s3)

/-- The C function `logout_handler`. -/
def logout_handler (E : Env) (g : Globals) : adapter_handler_t :=
  fun adapter domain handler_data s =>
    if g.dll_m_add_module then
      let module := make_module g adapter domain
      let r := E.m_add_module s.trace module
      let s1 := s.emit (Event.m_add_module module r.1 r.2)
      if r.1 ≠ 0 then (CKR_FUNCTION_FAILED, s1)
      else logout_handler_tail E g adapter domain handler_data (some module)
             (target_t.handle r.2) s1
    else
      logout_handler_tail E g adapter domain handler_data none
        (target_t.target_list (make_target_list adapter domain)) s

/-- The label `done` of `status_handler`: the module is removed when
`m_rm_module` is available, the capability list is freed when it was
allocated. -/
def status_handler_done (g : Globals) (module : Option XCP_Module) (target : target_t)
    (res_allocated : Bool) (s : State) : CK_RV × State :=
  let s1 := if g.dll_m_rm_module then s.emit (Event.m_rm_module module target) else s
  let s2 := if res_allocated then s1.emit Event.free else s1
  (CKR_OK, s2)

/-- The label `no_info` of `status_handler`. -/
def status_handler_no_info (g : Globals) (module : Option XCP_Module) (target : target_t)
    (res_allocated found : Bool) (s : State) : CK_RV × State :=
  status_handler_done g module target res_allocated
    (if found = false then s.emit (Event.stdout Msg.information_not_available) else s)

/-- The `for` loop of `status_handler` over the pairs of the capability list:
`i` is the loop variable, `limit` is `reslen / 4`, the first argument bounds
the number of rounds (`limit` rounds are enough since `i` grows by two). A read
past the end of the list gives 0. -/
def status_handler_loop (E : Env) (res : List Nat) (limit : Nat) :
    Nat → Nat → Bool → State → Bool × State
  | 0, _, found, s => (found, s)
  | fuel + 1, i, found, s =>
    if i < limit then
      if res.getD i 0 = E.CK_IBM_XCPXQ_MAX_SESSIONS then
        status_handler_loop E res limit fuel (i + 2) true
          (s.emit (Event.stdout (Msg.max_sessions (res.getD (i + 1) 0))))
      else if res.getD i 0 = E.CK_IBM_XCPXQ_AVAIL_SESSIONS then
        status_handler_loop E res limit fuel (i + 2) true
          (s.emit (Event.stdout (Msg.available_sessions (res.getD (i + 1) 0))))
      else status_handler_loop E res limit fuel (i + 2) found s
    else (found, s)

/-- The C function `status_handler` from the line that prints the APQN on. An answer of
`m_get_xcp_info` is the return code, the new `reslen` and the words written;
`caps` is the first word. -/
def status_handler_tail (E : Env) (g : Globals) (adapter domain : Nat)
    (module : Option XCP_Module) (target : target_t) (s : State) : CK_RV × State :=
  let s1 := s.emit (Event.stdout (Msg.apqn adapter domain))
  let q := E.m_get_xcp_info s1.trace XcpQuery.CK_IBM_XCPQ_EXT_CAPS target 4
  let s2 := s1.emit (Event.m_get_xcp_info XcpQuery.CK_IBM_XCPQ_EXT_CAPS target q.1)
  if q.1 ≠ CKR_OK ∨ q.2.1 ≠ 4 then
    status_handler_done g module target false (s2.emit (Event.stderr (Msg.ext_caps_failed q.1)))
  else
    let caps := q.2.2.getD 0 0
    if caps = 0 then status_handler_no_info g module target false false s2
    else
      let reslen := caps * 4 * 2
      let ok := E.calloc s2.trace reslen
      let s3 := s2.emit (Event.calloc reslen ok)
      if ok = false then
        status_handler_done g module target false (s3.emit (Event.stderr Msg.failed_to_allocate))
      else
        let q2 := E.m_get_xcp_info s3.trace XcpQuery.CK_IBM_XCPQ_EXT_CAPLIST target reslen
        let s4 := s3.emit (Event.m_get_xcp_info XcpQuery.CK_IBM_XCPQ_EXT_CAPLIST target q2.1)
        if q2.1 ≠ CKR_OK then
          status_handler_done g module target true
            (s4.emit (Event.stderr (Msg.ext_caplist_failed q2.1)))
        else
          let r := status_handler_loop E q2.2.2 (q2.2.1 / 4) (q2.2.1 / 4) 0 false s4
          status_handler_no_info g module target true r.1 r.2

/-- The C function `status_handler`. -/
def status_handler (E : Env) (g : Globals) : adapter_handler_t :=
  fun adapter domain _handler_data s =>
    if g.dll_m_add_module then
      let module := make_module g adapter domain
      let r := E.m_add_module s.trace module
      let s1 := s.emit (Event.m_add_module module r.1 r.2)
      if r.1 ≠ 0 then (CKR_FUNCTION_FAILED, s1.emit (Event.stderr (Msg.add_module_failed r.1)))
      else status_handler_tail E g adapter domain (some module) (target_t.handle r.2) s1
    else
      status_handler_tail E g adapter domain none
        (target_t.target_list (make_target_list adapter domain)) s

/-! ## The sysfs scan and the orchestrator

The program is modelled as built without `EP11_HSMSIM`. -/

/-- The C function `file_fgets`: the return code and the C string left in `buf`. -/
def file_fgets (E : Env) (fname : List Char) (buflen : Nat) (s : State) :
    CK_RV × List Char × State :=
  match E.fopen fname with
  | none => (CKR_FUNCTION_FAILED, [], s.emit (Event.stderr (Msg.failed_to_open_file fname)))
  | some content =>
    match fgets (buflen - 1) content with
    | [] => (CKR_FUNCTION_FAILED, [], s.emit (Event.stderr (Msg.failed_to_read_file fname)))
    | c :: line =>
      let buf := cstr ((c :: line).takeWhile (fun x => x != '\n'))
      if buf.length = 0 then (CKR_FUNCTION_FAILED, buf, s) else (CKR_OK, buf, s)

/-- The C function `is_card_ep11_and_online`. -/
def is_card_ep11_and_online (E : Env) (name : List Char) (s : State) : CK_RV × State :=
  let r1 := file_fgets E (SYSFS_DEVICES_AP ++ name ++ "/online".toList) 250 s
  if r1.1 ≠ CKR_OK then (r1.1, r1.2.2)
  else if r1.2.1 ≠ ['1'] then (CKR_FUNCTION_FAILED, r1.2.2)
  else
    let r2 := file_fgets E (SYSFS_DEVICES_AP ++ name ++ "/config".toList) 250 r1.2.2
    if r2.1 = CKR_OK ∧ r2.2.1 ≠ ['1'] then (CKR_FUNCTION_FAILED, r2.2.2)
    else
      let r3 := file_fgets E (SYSFS_DEVICES_AP ++ name ++ "/chkstop".toList) 250 r2.2.2
      if r3.1 = CKR_OK ∧ r3.2.1 ≠ ['0'] then (CKR_FUNCTION_FAILED, r3.2.2)
      else
        let r4 := file_fgets E (SYSFS_DEVICES_AP ++ name ++ "/ap_functions".toList) 250 r3.2.2
        if r4.1 ≠ CKR_OK then (r4.1, r4.2.2)
        else
          let val := (sscanf_hex 64 r4.2.1).getD 0
          if Nat.land val MASK_EP11 = 0 then (CKR_FUNCTION_FAILED, r4.2.2)
          else (CKR_OK, r4.2.2)

/-- The `while` loop of `scan_for_card_domains` over the directory entries that
`readdir` has yet to return. -/
def scan_for_card_domains_loop (handler : adapter_handler_t)
    (handler_data : Option (List Nat)) : List (List Char) → State → State
  | [], s => s
  | d_name :: rest, s =>
    if regexec REGEX_SUB_CARD_PATTERN d_name then
      match strtok d_name '.' with
      | none => scan_for_card_domains_loop handler handler_data rest s
      | some (tok, save) =>
        match sscanf_hex 32 tok with
        | none => scan_for_card_domains_loop handler handler_data rest s
        | some adapter =>
          match strtok save ',' with
          | none => scan_for_card_domains_loop handler handler_data rest s
          | some (tok2, _) =>
            match sscanf_hex 32 tok2 with
            | none => scan_for_card_domains_loop handler handler_data rest s
            | some domain =>
              let r := handler adapter domain handler_data s
              if r.1 ≠ CKR_OK then r.2
              else scan_for_card_domains_loop handler handler_data rest r.2
    else scan_for_card_domains_loop handler handler_data rest s

/-- The C function `scan_for_card_domains`. -/
def scan_for_card_domains (E : Env) (name : List Char) (handler : adapter_handler_t)
    (handler_data : Option (List Nat)) (s : State) : CK_RV × State :=
  if E.regcomp REGEX_SUB_CARD_PATTERN = false then
    (CKR_FUNCTION_FAILED,
      s.emit (Event.stderr (Msg.failed_to_compile_regex REGEX_SUB_CARD_PATTERN)))
  else
    match E.opendir (SYSFS_DEVICES_AP ++ name ++ "/".toList) with
    | none =>
      (CKR_OK, s.emit (Event.stderr
        (Msg.directory_not_available (SYSFS_DEVICES_AP ++ name ++ "/".toList))))
    | some entries => (CKR_OK, scan_for_card_domains_loop handler handler_data entries s)

/-- The `while` loop of `scan_for_ep11_cards` over the directory entries that
`readdir` has yet to return. -/
def scan_for_ep11_cards_loop (E : Env) (handler : adapter_handler_t)
    (handler_data : Option (List Nat)) : List (List Char) → State → State
  | [], s => s
  | d_name :: rest, s =>
    if regexec REGEX_CARD_PATTERN d_name then
      let r := is_card_ep11_and_online E d_name s
      if r.1 ≠ CKR_OK then scan_for_ep11_cards_loop E handler handler_data rest r.2
      else
        let r2 := scan_for_card_domains E d_name handler handler_data r.2
        if r2.1 ≠ CKR_OK then r2.2
        else scan_for_ep11_cards_loop E handler handler_data rest r2.2
    else scan_for_ep11_cards_loop E handler handler_data rest s

/-- The C function `scan_for_ep11_cards`; a NULL handler is `none`. -/
def scan_for_ep11_cards (E : Env) (handler : Option adapter_handler_t)
    (handler_data : Option (List Nat)) (s : State) : CK_RV × State :=
  match handler with
  | none => (CKR_ARGUMENTS_BAD, s)
  | some h =>
    if E.regcomp REGEX_CARD_PATTERN = false then
      (CKR_FUNCTION_FAILED,
        s.emit (Event.stderr (Msg.failed_to_compile_regex REGEX_CARD_PATTERN)))
    else
      match E.opendir SYSFS_DEVICES_AP with
      | none =>
        (CKR_FUNCTION_FAILED,
          s.emit (Event.stderr (Msg.directory_not_available SYSFS_DEVICES_AP)))
      | some entries => (CKR_OK, scan_for_ep11_cards_loop E h handler_data entries s)

/-- The `for` loop of `handle_all_ep11_cards` over the allow-list: the first
argument counts the rounds left, `i` is the loop variable. An index past the
end of `apqns` reads 0. -/
def handle_all_ep11_cards_loop (apqns : List Int) (handler : adapter_handler_t)
    (handler_data : Option (List Nat)) : Nat → Nat → State → CK_RV × State
  | 0, _, s => (CKR_OK, s)
  | n + 1, i, s =>
    let r := handler (short_to_uint_32 (apqns.getD (2 * i) 0))
               (short_to_uint_32 (apqns.getD (2 * i + 1) 0)) handler_data s
    if r.1 ≠ CKR_OK then r
    else handle_all_ep11_cards_loop apqns handler handler_data n (i + 1) r.2

/-- The C function `handle_all_ep11_cards`. -/
def handle_all_ep11_cards (E : Env) (ep11_targets : ep11_target_t)
    (handler : adapter_handler_t) (handler_data : Option (List Nat)) (s : State) :
    CK_RV × State :=
  if ep11_targets.length > 0 then
    handle_all_ep11_cards_loop ep11_targets.apqns handler handler_data
      ep11_targets.length.toNat 0 s
  else scan_for_ep11_cards E (some handler) handler_data s

/-! ## The session actions -/

/-- The lines that `show_session_obj` and `logout_session_obj` print first:
the session id, the owner pid (marked when the owner is running) and the date. -/
def print_session (E : Env) (session_id : List Nat) (session_id_len : Nat) (pid : Int)
    (date : CK_DATE) (s : State) : State :=
  let s1 := s.emit (Event.stdout (Msg.session_id (session_id.take session_id_len)))
  let s2 := if is_process_running E pid then s1.emit (Event.stdout (Msg.pid_still_running pid))
            else s1.emit (Event.stdout (Msg.pid pid))
  s2.emit (Event.stdout (Msg.date date))

/-- The end of `logout_session_obj`, from the call of `C_DestroyObject` on. -/
def logout_session_obj_destroy (E : Env) (g : Globals) (session obj : Nat) (s : State) :
    CK_RV × State :=
  let rc := E.C_DestroyObject s.trace session obj
  let s1 := s.emit (Event.C_DestroyObject session obj rc)
  if rc ≠ CKR_OK then (rc, s1.emit (Event.stderr (Msg.C_DestroyObject_rc rc)))
  else
    let s2 := if g.force = false then s1.emit (Event.stdout Msg.logged_out_successfully)
              else s1.emit (Event.stdout Msg.deleted_due_to_force)
    (CKR_OK, { s2 with count := s2.count + 1 })

/-- The C function `logout_session_obj`. -/
def logout_session_obj (E : Env) (g : Globals) : handler_t :=
  fun session obj pin_blob _pin_blob_size session_id session_id_len ep11_targets pid date s =>
    let s0 := print_session E session_id session_id_len pid date s
    if is_process_running E pid then
      (CKR_OK, s0.emit (Event.stdout (Msg.not_logged_out_still_running pid)))
    else
      let s1 := { s0 with error := CKR_OK }
      let r := handle_all_ep11_cards E ep11_targets (logout_handler E g) (some pin_blob) s1
      if r.1 ≠ CKR_OK then (r.1, r.2.emit (Event.stderr (Msg.handle_all_ep11_cards_rc r.1)))
      else if r.2.error ≠ CKR_OK then
        let s2 := r.2.emit (Event.stderr Msg.not_all_apqns_logged_out)
        if g.force = false then (r.1, s2.emit (Event.stderr Msg.session_not_deleted))
        else logout_session_obj_destroy E g session obj s2
      else logout_session_obj_destroy E g session obj r.2

/-- The state of `logout_session_obj` when the sweep starts: the session has
been printed and `error` has been reset to `CKR_OK`. -/
def sweep_start (E : Env) (session_id : List Nat) (session_id_len : Nat) (pid : Int)
    (date : CK_DATE) (s : State) : State :=
  { print_session E session_id session_id_len pid date s with error := CKR_OK }

/-- The statements `error = CKR_OK; rc = handle_all_ep11_cards(ep11_targets,
logout_handler, pin_blob);` of `logout_session_obj`, run once the session has
been printed: the logout sweep over the endpoints of a session. -/
def logout_sweep (E : Env) (g : Globals) (pin_blob session_id : List Nat)
    (session_id_len : Nat) (ep11_targets : ep11_target_t) (pid : Int) (date : CK_DATE)
    (s : State) : CK_RV × State :=
  handle_all_ep11_cards E ep11_targets (logout_handler E g) (some pin_blob)
    (sweep_start E session_id session_id_len pid date s)

/-- The C function `show_session_obj`. -/
def show_session_obj (E : Env) : handler_t :=
  fun _session _obj _pin_blob _pin_blob_size session_id session_id_len _ep11_targets pid date s =>
    let s0 := print_session E session_id session_id_len pid date s
    (CKR_OK, { s0 with count := s0.count + 1 })

/-- The C function `process_session_obj`. The answer of `C_GetAttributeValue` is its
return code and the content of the five attribute buffers; `sizeof(pin_blob)`
is the length of the buffer content. -/
def process_session_obj (E : Env) (g : Globals) (session obj : Nat) (handler : handler_t)
    (s : State) : CK_RV × State :=
  let a := E.C_GetAttributeValue s.trace session obj
  let s1 := s.emit (Event.C_GetAttributeValue session obj a.1)
  if a.1 ≠ CKR_OK then
    let s2 := s1.emit (Event.stderr (Msg.C_GetAttributeValue_rc a.1))
    let rc := E.C_DestroyObject s2.trace session obj
    (CKR_OK, s2.emit (Event.C_DestroyObject session obj rc))
  else if a.2.pid = E.getpid then (CKR_OK, s1)
  else
    if filter_session E.libc g a.2.session_id EP11_SESSION_ID_SIZE a.2.date a.2.pid then
      let r := handler session obj a.2.pin_blob a.2.pin_blob.length a.2.session_id
                 EP11_SESSION_ID_SIZE a.2.ep11_targets a.2.pid a.2.date s1
      if r.1 ≠ CKR_OK then r else (CKR_OK, r.2)
    else (CKR_OK, s1)

/-- The `for` loop of `find_sessions` over the objects of one batch. -/
def find_sessions_batch (E : Env) (g : Globals) (session : Nat) (handler : handler_t) :
    List Nat → State → CK_RV × State
  | [], s => (CKR_OK, s)
  | obj :: rest, s =>
    let r := process_session_obj E g session obj handler s
    if r.1 ≠ CKR_OK then r else find_sessions_batch E g session handler rest r.2

/-- The `do ... while` loop of `find_sessions` over the answers that
`C_FindObjects` has yet to give. -/
def find_sessions_loop (E : Env) (g : Globals) (session : Nat) (handler : handler_t) :
    List (CK_RV × List Nat) → State → CK_RV × State
  | [], s => (CKR_OK, s.emit (Event.C_FindObjects session CKR_OK []))
  | (rc, objs) :: answers, s =>
    let s1 := s.emit (Event.C_FindObjects session rc objs)
    if rc ≠ CKR_OK then (rc, s1.emit (Event.stderr (Msg.C_FindObjects_rc rc)))
    else
      let r := find_sessions_batch E g session handler objs s1
      if r.1 ≠ CKR_OK then r
      else if objs.length ≠ 0 then find_sessions_loop E g session handler answers r.2
      else r

/-- The C function `find_sessions`. -/
def find_sessions (E : Env) (g : Globals) (session : Nat) (handler : handler_t) (s : State) :
    CK_RV × State :=
  let rc := E.C_FindObjectsInit s.trace session
  let s1 := s.emit (Event.C_FindObjectsInit session rc)
  let r := if rc ≠ CKR_OK then (rc, s1.emit (Event.stderr (Msg.C_FindObjectsInit_rc rc)))
           else find_sessions_loop E g session handler E.C_FindObjects s1
  (r.1, r.2.emit (Event.C_FindObjectsFinal session))

/-- The C function `show_sessions`. -/
def show_sessions (E : Env) (g : Globals) (session : Nat) (s : State) : CK_RV × State :=
  let s1 := { s.emit (Event.stdout Msg.list_of_sessions) with count := 0 }
  let r := find_sessions E g session (show_session_obj E) s1
  if r.1 ≠ CKR_OK then r
  else (0, r.2.emit (Event.stdout (Msg.sessions_displayed r.2.count)))

/-- The C function `logout_sessions`. -/
def logout_sessions (E : Env) (g : Globals) (session : Nat) (s : State) : CK_RV × State :=
  let s1 := { s.emit (Event.stdout Msg.list_of_sessions) with count := 0 }
  let r := find_sessions E g session (logout_session_obj E g) s1
  if r.1 ≠ CKR_OK then r
  else (r.1, r.2.emit (Event.stdout (Msg.sessions_logged_out r.2.count)))

/-- The target list `any_target` of `show_ep11_status`: all zero, so of length 0. -/
def any_target : ep11_target_t := { format := 0, length := 0, apqns := List.replicate 512 0 }

/-- The C function `show_ep11_status`. -/
def show_ep11_status (E : Env) (g : Globals) (s : State) : CK_RV × State :=
  let r := handle_all_ep11_cards E any_target (status_handler E g) none s
  if r.1 ≠ CKR_OK then (r.1, r.2.emit (Event.stderr (Msg.handle_all_ep11_cards_rc r.1)))
  else (CKR_OK, r.2)

/-! ## Definitions in the words of the specification -/

/-- The date test as the specification words it: the stored year, month and day,
written `YYYY/MM/DD`, parse completely, the parsed date is a calendar time, and
that time is on or before the cutoff. -/
def date_on_or_before (L : Libc) (cutoff : Int) (date : CK_DATE) : Bool :=
  match L.strptime (cstr (date_temp date)) date_format tm_zero with
  | some (tmv, []) => decide (L.mktime tmv ≠ -1 ∧ L.mktime tmv ≤ cutoff)
  | _ => false

/-- Entry `k` of an allow-list: the pair `(apqns[2 * k], apqns[2 * k + 1])`, as
it is passed to a handler. -/
def allow_list_entry (apqns : List Int) (k : Nat) : Nat × Nat :=
  (short_to_uint_32 (apqns.getD (2 * k) 0), short_to_uint_32 (apqns.getD (2 * k + 1) 0))

/-- The listed endpoints of an explicit allow-list, in list order: the entries
`0 .. length - 1`. -/
def allow_list (t : ep11_target_t) : List (Nat × Nat) :=
  (List.range t.length.toNat).map (allow_list_entry t.apqns)

/-- The endpoint that `scan_for_card_domains` reads from the name of a directory
entry, if any: the name contains the sub-card pattern, its text before the first
dot scans as a hexadecimal adapter and the text after it, up to a comma, as a
hexadecimal domain. -/
def entry_endpoint (d_name : List Char) : Option (Nat × Nat) :=
  if regexec REGEX_SUB_CARD_PATTERN d_name then
    (strtok d_name '.').bind fun t1 =>
    (sscanf_hex 32 t1.1).bind fun adapter =>
    (strtok t1.2 ',').bind fun t2 =>
    (sscanf_hex 32 t2.1).bind fun domain =>
    some (adapter, domain)
  else none

/-- A logout answer that counts as a failure: neither `CKR_OK` nor
`CKR_SESSION_CLOSED`. -/
def logout_failed (rc : CK_RV) : Bool := decide (rc ≠ CKR_OK ∧ rc ≠ CKR_SESSION_CLOSED)

/-- The failure aggregate in the words of the specification: the code of the
last failing logout answer, `e0` when none failed. -/
def last_failure (e0 : CK_RV) (rcs : List CK_RV) : CK_RV :=
  ((rcs.filter logout_failed).getLast?).getD e0

/-! ## Reading a trace -/

/-- The answers of the `m_Logout` calls among some events, in order. -/
def logout_results (tr : List Event) : List CK_RV :=
  tr.filterMap fun e =>
    match e with
    | Event.m_Logout _ _ rc => some rc
    | _ => none

/-- The calls of `m_add_module` and `m_rm_module` among some events, in order. -/
def module_events (tr : List Event) : List Event :=
  tr.filter fun e =>
    match e with
    | Event.m_add_module _ _ _ => true
    | Event.m_rm_module _ _ => true
    | _ => false

/-- The number of calls of `m_add_module` that returned 0. -/
def count_m_add_module_ok (tr : List Event) : Nat :=
  (tr.filter fun e =>
    match e with
    | Event.m_add_module _ rc _ => decide (rc = 0)
    | _ => false).length

/-- The number of calls of `m_rm_module`. -/
def count_m_rm_module (tr : List Event) : Nat :=
  (tr.filter fun e =>
    match e with
    | Event.m_rm_module _ _ => true
    | _ => false).length

/-- The state `s2` continues `s1`: its trace is the trace of `s1` followed by
further events, among which the module calls are `evs`. -/
def Continues (s1 s2 : State) (evs : List Event) : Prop :=
  ∃ l, s2.trace = s1.trace ++ l ∧ module_events l = evs

/-- The traced state `s2` comes from `s1` by a sweep over the endpoints `eps`
in which no handler invocation failed: one recorded invocation per endpoint, in
order, each with the result `CKR_OK`; one `m_Logout` call per endpoint; and
`error` holds the last failing logout answer, or its old value. -/
def Swept (s1 s2 : State) (eps : List (Nat × Nat)) : Prop :=
  s2.calls = s1.calls ++ eps.map (fun p => (p.1, p.2, CKR_OK)) ∧
  ∃ l, s2.trace = s1.trace ++ l ∧ (logout_results l).length = eps.length ∧
    s2.error = last_failure s1.error (logout_results l)

/-- What `file_fgets` gives back apart from the state: the return code and the
C string in `buf`. They depend on the file only. -/
def file_fgets_result (E : Env) (fname : List Char) (buflen : Nat) : CK_RV × List Char :=
  ((file_fgets E fname buflen State.init).1, (file_fgets E fname buflen State.init).2.1)

/-! ## Sample inputs and collaborators -/

/-- A session record created on 2024/01/01. -/
def date_2024_01_01 : CK_DATE :=
  { year := ('2', '0', '2', '4'), month := ('0', '1'), day := ('0', '1') }

/-- A session record created on 2021/05/01. -/
def date_2021_05_01 : CK_DATE :=
  { year := ('2', '0', '2', '1'), month := ('0', '5'), day := ('0', '1') }

/-- A session record created on 2022/01/01. -/
def date_2022_01_01 : CK_DATE :=
  { year := ('2', '0', '2', '2'), month := ('0', '1'), day := ('0', '1') }

/-- A session id of sixteen bytes. -/
def sample_id : List Nat := List.replicate 16 0xAB

/-- The variables after `-date 2022/01/01 -pid 4200` in UTC. -/
def globals_date_pid : Globals :=
  { Globals.init with filter_date := 1640995200, filter_pid := 4200 }

/-- The variables when both module functions were found in a host library of
major version 3 and no filter is set. -/
def globals_modular : Globals :=
  { Globals.init with lib_version_major := 3, dll_m_add_module := true,
                      dll_m_rm_module := true }

/-- Sample session attributes: the session of pid 4100 created on 2021/05/01,
bound to the endpoint (0x01, 0x0002). -/
def sample_attrs : SessionAttrs :=
  { pin_blob := [1, 2, 3], session_id := sample_id,
    ep11_targets := { format := 0, length := 1, apqns := [1, 2] ++ List.replicate 510 0 },
    pid := 4100, date := date_2021_05_01 }

/-- An allow-list of three endpoints: (1, 1), (1, 2) and (2, 1). -/
def sample_allow_list : ep11_target_t :=
  { format := 0, length := 3, apqns := [1, 1, 1, 2, 2, 1] ++ List.replicate 506 0 }

/-- Sample collaborators. The tool runs as pid 1000 and only pid 4200 is alive.
The sysfs tree holds the online EP11 adapters `card00` (domains `00.0001` and
`00.0002`) and `card01` (domain `01.0002`). `m_add_module` succeeds with the
handle `adapter * 65536 + domain`; `m_Logout` answers with `logout_rc`; the
token store holds object 7 (`sample_attrs`) and every call to it succeeds. -/
def sample_env (logout_rc : CK_RV) : Env :=
  { libc := ref_libc,
    getpid := 1000,
    proc_stat := fun pid => decide (pid = 4200),
    regcomp := fun _ => true,
    opendir := fun path =>
      if path = "/sys/devices/ap/".toList then
        some [".".toList, "..".toList, "card00".toList, "card01".toList]
      else if path = "/sys/devices/ap/card00/".toList then
        some [".".toList, "..".toList, "00.0001".toList, "00.0002".toList, "online".toList]
      else if path = "/sys/devices/ap/card01/".toList then
        some [".".toList, "..".toList, "01.0002".toList, "online".toList]
      else none,
    fopen := fun path =>
      if path = "/sys/devices/ap/card00/online".toList then some "1\n".toList
      else if path = "/sys/devices/ap/card01/online".toList then some "1\n".toList
      else if path = "/sys/devices/ap/card00/ap_functions".toList then
        some "0x04000000\n".toList
      else if path = "/sys/devices/ap/card01/ap_functions".toList then
        some "0x04000000\n".toList
      else none,
    m_add_module := fun _ m => (0, m.module_nr * 65536 + m.domainmask.headD 0),
    m_Logout := fun _ _ _ => logout_rc,
    m_get_xcp_info := fun _ _ _ reslen => (CKR_OK, reslen, [0]),
    calloc := fun _ _ => true,
    CK_IBM_XCPXQ_MAX_SESSIONS := 1,
    CK_IBM_XCPXQ_AVAIL_SESSIONS := 2,
    C_GetAttributeValue := fun _ _ _ => (CKR_OK, sample_attrs),
    C_DestroyObject := fun _ _ _ => CKR_OK,
    C_FindObjectsInit := fun _ _ => CKR_OK,
    C_FindObjects := [(CKR_OK, [7])] }

/-- The handler that fails with `CKR_FUNCTION_FAILED` on the domain `fail_domain` and
succeeds elsewhere; it does nothing else. -/
def failing_handler (fail_domain : Nat) : adapter_handler_t :=
  fun _ domain _ s => (if domain = fail_domain then CKR_FUNCTION_FAILED else CKR_OK, s)

/-! ## The health of an adapter in the words of the specification -/

/-- The value of the attribute `attr` (a file name with its leading slash) of
the adapter `name`, as the scanner reads it: `none` when the attribute cannot
be read (no such file, a failing read, an empty first line), else its first
line without the newline. -/
def read_attribute (E : Env) (name attr : List Char) : Option (List Char) :=
  if (file_fgets_result E (SYSFS_DEVICES_AP ++ name ++ attr) 250).1 = CKR_OK then
    some (file_fgets_result E (SYSFS_DEVICES_AP ++ name ++ attr) 250).2
  else none

/-- Health predicate (a): the adapter reports "online". -/
def reports_online (E : Env) (name : List Char) : Bool :=
  decide (read_attribute E name "/online".toList = some ['1'])

/-- Health predicate (b): the adapter reports "configured" if that attribute
can be read. -/
def reports_configured (E : Env) (name : List Char) : Bool :=
  decide (read_attribute E name "/config".toList = none ∨
    read_attribute E name "/config".toList = some ['1'])

/-- Health predicate (c): the adapter reports no checkstop if that attribute
can be read. -/
def reports_no_checkstop (E : Env) (name : List Char) : Bool :=
  decide (read_attribute E name "/chkstop".toList = none ∨
    read_attribute E name "/chkstop".toList = some ['0'])

/-- Health predicate (d): the function mask can be read and has the bit
`MASK_EP11`; a mask that does not scan as a hexadecimal number counts as 0. -/
def has_ep11_function (E : Env) (name : List Char) : Bool :=
  match read_attribute E name "/ap_functions".toList with
  | none => false
  | some buf => decide (Nat.land ((sscanf_hex 64 buf).getD 0) MASK_EP11 ≠ 0)

/-- The four health predicates hold. -/
def healthy (E : Env) (name : List Char) : Bool :=
  reports_online E name && reports_configured E name && reports_no_checkstop E name &&
    has_ep11_function E name

/-- The sample collaborators with other content in one file. -/
def sample_env_with_file (path content : List Char) : Env :=
  { sample_env CKR_OK with
    fopen := fun p => if p = path then some content else (sample_env CKR_OK).fopen p }

/-- The sample collaborators with one directory that cannot be opened. -/
def sample_env_without_dir (path : List Char) : Env :=
  { sample_env CKR_OK with
    opendir := fun p => if p = path then none else (sample_env CKR_OK).opendir p }

/-- The line that opens the report of a session: `show_session_obj` and
`logout_session_obj` print it first, once per invocation. -/
def is_session_line (e : Event) : Bool :=
  match e with
  | Event.stdout (Msg.session_id _) => true
  | _ => false

/-- The two lines that report a destroyed session object: "Session logged out
successfully" and "Session deleted due to -force option". -/
def is_logged_out_line (e : Event) : Bool :=
  match e with
  | Event.stdout Msg.logged_out_successfully => true
  | Event.stdout Msg.deleted_due_to_force => true
  | _ => false

/-- The number of events of one kind. -/
def count_lines (P : Event → Bool) (tr : List Event) : Nat := (tr.filter P).length

/-- The state `s2` continues `s1` and `count` has grown by the number of new
events of the kind `P`. -/
def Counted (P : Event → Bool) (s1 s2 : State) : Prop :=
  ∃ l, s2.trace = s1.trace ++ l ∧ s2.count = s1.count + count_lines P l

/-- The sample collaborators with a store whose object 7 is the session of the
running pid 4200 created on 2024/01/01. -/
def sample_env_live_owner : Env :=
  { sample_env CKR_OK with
    C_GetAttributeValue := fun _ _ _ =>
      (CKR_OK, { sample_attrs with pid := 4200, date := date_2024_01_01 }) }

/-- The sample collaborators with a library whose `m_add_module` fails with 5 for
the endpoint (`adapter`, `domain`) and succeeds for every other endpoint. -/
def sample_env_failing_registration (adapter domain : Nat) : Env :=
  { sample_env CKR_OK with
    m_add_module := fun tr m =>
      if m.module_nr = adapter ∧ m.domainmask = [domain] then (5, 0)
      else (sample_env CKR_OK).m_add_module tr m }

/-- The globals of a run with the option `-force` and a library that has
`m_add_module` and `m_rm_module`. -/
def globals_force : Globals := { globals_modular with force := true }

/-- The value `sscanf` stores in a `uint_32` for a string of hexadecimal digits
that write the number `v`: the conversion saturates at `ULONG_MAX`, which is
2 ^ 64 - 1, and the result is then cut to its low 32 bits. So `v` is stored as
it is below 2 ^ 32, as `v % 2 ^ 32` below 2 ^ 64, and as 0xFFFFFFFF from
2 ^ 64 on. -/
def stored_uint_32 (v : Nat) : Nat :=
  (if 2 ^ 64 ≤ v then 2 ^ 64 - 1 else v) % 2 ^ 32

/-- The hierarchy of the discovery scenario: the sysfs root holds `card01`
(online "1", function mask 0x04000000) whose single subdirectory is
`01.0002`. -/
def scenario_env : Env :=
  { sample_env CKR_OK with
    opendir := fun path =>
      if path = "/sys/devices/ap/".toList then some [".".toList, "..".toList, "card01".toList]
      else if path = "/sys/devices/ap/card01/".toList then
        some [".".toList, "..".toList, "01.0002".toList]
      else none,
    fopen := fun path =>
      if path = "/sys/devices/ap/card01/online".toList then some "1\n".toList
      else if path = "/sys/devices/ap/card01/ap_functions".toList then
        some "0x04000000\n".toList
      else none }

/-! # Theorems -/

/-! ## Lemmas on the filter -/

theorem memcmp_eq_zero_iff (a b : List Nat) (n : Nat) (ha : n ≤ a.length) (hb : n ≤ b.length) :
    memcmp a b n = 0 ↔ a.take n = b.take n := by
  induction n generalizing a b with
  | zero => simp [memcmp]
  | succ n ih =>
    cases a with
    | nil => simp at ha
    | cons x xs =>
      cases b with
      | nil => simp at hb
      | cons y ys =>
        simp only [List.length_cons, Nat.add_le_add_iff_right] at ha hb
        by_cases hxy : x = y
        · subst hxy
          simp [memcmp, ih xs ys ha hb]
        · have hne : (x : Int) - (y : Int) ≠ 0 := by omega
          simp [memcmp, hxy, hne]

theorem memcmp_sixteen (a b : List Nat) (ha : a.length = 16) (hb : b.length = 16) :
    memcmp a b 16 = 0 ↔ a = b := by
  rw [memcmp_eq_zero_iff a b 16 (by omega) (by omega)]
  rw [List.take_of_length_le (by omega), List.take_of_length_le (by omega)]

theorem filter_session_date_branch (L : Libc) (g : Globals) (id : List Nat) (len : Nat)
    (date : CK_DATE) (pid : Int) (hid : g.filter_sess_id_set = false)
    (hdate : g.filter_date ≠ -1) :
    filter_session L g id len date pid = date_on_or_before L g.filter_date date := by
  unfold filter_session date_on_or_before difftime
  rw [if_neg (by simp [hid]), if_pos hdate]
  cases hp : L.strptime (cstr (date_temp date)) date_format tm_zero with
  | none => simp
  | some r =>
    obtain ⟨tmv, p⟩ := r
    cases p with
    | nil =>
      by_cases h1 : L.mktime tmv = -1
      · simp [h1]
      · by_cases h2 : L.mktime tmv ≤ g.filter_date
        · simp [h1, h2]
        · simp [h1, h2]
    | cons c cs => simp

/-! ## The claims -/

/-- C1: `filter_session` applies one filter, chosen by the precedence
id > date > pid > match-all. With an id filter the result is the equality of the
16-byte session id with the filter id; otherwise with a date filter it is the
date test, a function of the cutoff and the stored date only; otherwise with a
pid filter it is the equality of the owner pid with the filter pid; otherwise
every session matches. In particular a record whose pid equals the pid filter
and whose date is after the cutoff does not match when both filters are set and
matches when only the pid filter is set. -/
theorem filter_session_precedence (L : Libc) (g : Globals) (id : List Nat)
    (date : CK_DATE) (pid : Int)
    (hid : id.length = 16) (hfid : g.filter_sess_id.length = 16) :
    filter_session L g id EP11_SESSION_ID_SIZE date pid =
      (if g.filter_sess_id_set = true then decide (id = g.filter_sess_id)
       else if g.filter_date ≠ -1 then date_on_or_before L g.filter_date date
       else if g.filter_pid ≠ 0 then decide (pid = g.filter_pid)
       else true) ∧
    (∀ tmv : tm, g.filter_sess_id_set = false → g.filter_date ≠ -1 → g.filter_pid ≠ 0 →
      pid = g.filter_pid →
      L.strptime (cstr (date_temp date)) date_format tm_zero = some (tmv, []) →
      g.filter_date < L.mktime tmv →
      filter_session L g id EP11_SESSION_ID_SIZE date pid = false ∧
      filter_session L { g with filter_date := -1 } id EP11_SESSION_ID_SIZE date pid = true) := by
  constructor
  · by_cases h1 : g.filter_sess_id_set = true
    · have hm := memcmp_sixteen id g.filter_sess_id hid hfid
      by_cases h2 : id = g.filter_sess_id
      · have h3 := hm.mpr h2
        rw [h2] at h3
        simp [filter_session, h1, EP11_SESSION_ID_SIZE, h3, h2]
      · have h3 : memcmp id g.filter_sess_id 16 ≠ 0 := fun h => h2 (hm.mp h)
        simp [filter_session, h1, EP11_SESSION_ID_SIZE, h3, h2]
    · have h1f : g.filter_sess_id_set = false := by simpa using h1
      by_cases h2 : g.filter_date ≠ -1
      · rw [filter_session_date_branch L g id _ date pid h1f h2]
        simp [h1f, h2]
      · have h2e : g.filter_date = -1 := by simpa using h2
        by_cases h3 : g.filter_pid ≠ 0
        · by_cases h4 : pid = g.filter_pid
          · simp [filter_session, h1f, h2e, h3, h4]
          · simp [filter_session, h1f, h2e, h3, h4]
        · have h3e : g.filter_pid = 0 := by simpa using h3
          simp [filter_session, h1f, h2e, h3e]
  · intro tmv h1 h2 h3 h4 h5 h6
    constructor
    · rw [filter_session_date_branch L g id _ date pid h1 h2]
      have h7 : ¬ L.mktime tmv ≤ g.filter_date := by omega
      simp [date_on_or_before, h5, h7]
    · simp [filter_session, h1, h3, h4]

/-- Witness of C1: a record of pid 4200 dated 2024/01/01 under a cutoff of 2022/01/01
and the pid filter 4200. -/
theorem filter_session_precedence_witness :
    filter_session ref_libc globals_date_pid sample_id EP11_SESSION_ID_SIZE
        date_2024_01_01 4200 = false ∧
    filter_session ref_libc { globals_date_pid with filter_date := -1 } sample_id
        EP11_SESSION_ID_SIZE date_2024_01_01 4200 = true :=
  (filter_session_precedence ref_libc globals_date_pid sample_id date_2024_01_01 4200
    (by decide) (by decide)).2
    { tm_zero with tm_year := 124, tm_mon := 0, tm_mday := 1 }
    (by decide) (by decide) (by decide) (by decide) (by decide) (by decide)

/-- C2: with no id filter and a date filter set, `filter_session` returns true
exactly when the stored year/month/day, written `YYYY/MM/DD`, parses completely
to a calendar time that is on or before the cutoff; a record whose text is the
very cutoff argument matches; a stored date that does not parse completely
gives false (the function is total: there is no error result). -/
theorem filter_session_date (L : Libc) (g : Globals) (id : List Nat) (len : Nat)
    (date : CK_DATE) (pid : Int)
    (hid : g.filter_sess_id_set = false) (hdate : g.filter_date ≠ -1) :
    (filter_session L g id len date pid = true ↔
      ∃ tmv : tm, L.strptime (cstr (date_temp date)) date_format tm_zero = some (tmv, []) ∧
        L.mktime tmv ≠ -1 ∧ L.mktime tmv ≤ g.filter_date) ∧
    (do_ParseArgs_date L (cstr (date_temp date)) = some g.filter_date →
      filter_session L g id len date pid = true) ∧
    ((∀ tmv : tm, L.strptime (cstr (date_temp date)) date_format tm_zero ≠ some (tmv, [])) →
      filter_session L g id len date pid = false) := by
  rw [filter_session_date_branch L g id len date pid hid hdate]
  unfold date_on_or_before do_ParseArgs_date
  cases hp : L.strptime (cstr (date_temp date)) date_format tm_zero with
  | none => simp
  | some r =>
    obtain ⟨tmv, p⟩ := r
    cases p with
    | nil =>
      refine ⟨?_, ?_, ?_⟩
      · simp
      · intro h
        by_cases hlen : (cstr (date_temp date)).length = 0
        · simp [hlen] at h
        · by_cases hm : L.mktime tmv = -1
          · simp [hlen, hm] at h
          · simp [hlen, hm] at h
            simp [h, hdate]
      · intro h
        exact absurd rfl (h tmv)
    | cons c cs => simp

/-- Witness of C2: under the cutoff 2022/01/01 (reference C library) a record dated
2022/01/01 matches, as does one dated 2021/05/01; one dated 2024/01/01 and one
whose year is not a number do not. -/
theorem filter_session_date_witness :
    filter_session ref_libc globals_date_pid sample_id EP11_SESSION_ID_SIZE
      date_2022_01_01 4100 = true ∧
    do_ParseArgs_date ref_libc "2022/01/01".toList = some globals_date_pid.filter_date ∧
    filter_session ref_libc globals_date_pid sample_id EP11_SESSION_ID_SIZE
      date_2021_05_01 4100 = true ∧
    filter_session ref_libc globals_date_pid sample_id EP11_SESSION_ID_SIZE
      date_2024_01_01 4100 = false ∧
    filter_session ref_libc globals_date_pid sample_id EP11_SESSION_ID_SIZE
      { date_2021_05_01 with year := ('2', '0', 'x', '1') } 4100 = false :=
  ⟨(filter_session_date ref_libc globals_date_pid sample_id EP11_SESSION_ID_SIZE
      date_2022_01_01 4100 (by decide) (by decide)).2.1 (by decide),
    by decide, by decide, by decide, by decide⟩

/-- C3: when the attributes are read and the owner pid is the pid of the tool
itself, `process_session_obj` returns `CKR_OK` and the only thing that happened
is the call of `C_GetAttributeValue`: the result is the same for every handler
(the show and the logout action included, none is invoked), every filter
setting and every C library (the filter is not evaluated). -/
theorem process_session_obj_own_session (E : Env) (g : Globals) (session obj : Nat)
    (handler : handler_t) (s : State)
    (hrc : (E.C_GetAttributeValue s.trace session obj).1 = CKR_OK)
    (hpid : (E.C_GetAttributeValue s.trace session obj).2.pid = E.getpid) :
    process_session_obj E g session obj handler s =
      (CKR_OK, s.emit (Event.C_GetAttributeValue session obj CKR_OK)) ∧
    process_session_obj E g session obj (show_session_obj E) s =
      (CKR_OK, s.emit (Event.C_GetAttributeValue session obj CKR_OK)) ∧
    process_session_obj E g session obj (logout_session_obj E g) s =
      (CKR_OK, s.emit (Event.C_GetAttributeValue session obj CKR_OK)) := by
  have key : ∀ h : handler_t, process_session_obj E g session obj h s =
      (CKR_OK, s.emit (Event.C_GetAttributeValue session obj CKR_OK)) := by
    intro h
    unfold process_session_obj
    simp only [hrc, hpid, ne_eq, not_true_eq_false, if_false, if_true]
  exact ⟨key handler, key _, key _⟩

/-- Witness of C3: the sample session, with the tool running as its owner pid 4100,
under the logout action. -/
theorem process_session_obj_own_session_witness :
    process_session_obj { sample_env CKR_OK with getpid := 4100 } globals_modular 1 7
        (logout_session_obj { sample_env CKR_OK with getpid := 4100 } globals_modular)
        State.init =
      (CKR_OK, State.init.emit (Event.C_GetAttributeValue 1 7 CKR_OK)) :=
  (process_session_obj_own_session { sample_env CKR_OK with getpid := 4100 } globals_modular
    1 7 (logout_session_obj { sample_env CKR_OK with getpid := 4100 } globals_modular)
    State.init rfl rfl).1

/-! ## The logout action on one session -/

theorem logout_session_obj_dead (E : Env) (g : Globals) (session obj : Nat)
    (pin_blob : List Nat) (size : Nat) (session_id : List Nat) (len : Nat)
    (targets : ep11_target_t) (pid : Int) (date : CK_DATE) (s : State)
    (hdead : is_process_running E pid = false) :
    logout_session_obj E g session obj pin_blob size session_id len targets pid date s =
      (let r := logout_sweep E g pin_blob session_id len targets pid date s
       if r.1 ≠ CKR_OK then (r.1, r.2.emit (Event.stderr (Msg.handle_all_ep11_cards_rc r.1)))
       else if r.2.error ≠ CKR_OK then
         if g.force = false then
           (r.1, (r.2.emit (Event.stderr Msg.not_all_apqns_logged_out)).emit
                   (Event.stderr Msg.session_not_deleted))
         else logout_session_obj_destroy E g session obj
                (r.2.emit (Event.stderr Msg.not_all_apqns_logged_out))
       else logout_session_obj_destroy E g session obj r.2) := by
  unfold logout_session_obj logout_sweep
  simp only [hdead]
  rfl

theorem logout_session_obj_destroy_trace (E : Env) (g : Globals) (session obj : Nat)
    (s : State) :
    (logout_session_obj_destroy E g session obj s).2.trace =
      s.trace ++ [Event.C_DestroyObject session obj (E.C_DestroyObject s.trace session obj),
        if E.C_DestroyObject s.trace session obj = CKR_OK then
          (if g.force = false then Event.stdout Msg.logged_out_successfully
           else Event.stdout Msg.deleted_due_to_force)
        else Event.stderr (Msg.C_DestroyObject_rc (E.C_DestroyObject s.trace session obj))] := by
  unfold logout_session_obj_destroy
  by_cases h : E.C_DestroyObject s.trace session obj = CKR_OK
  · by_cases hf : g.force = false
    · simp [h, hf, State.emit]
    · simp [h, hf, State.emit]
  · simp [h, State.emit]

theorem logout_session_obj_running (E : Env) (g : Globals) (session obj : Nat)
    (pin_blob : List Nat) (size : Nat) (session_id : List Nat) (len : Nat)
    (targets : ep11_target_t) (pid : Int) (date : CK_DATE) (s : State)
    (hlive : is_process_running E pid = true) :
    logout_session_obj E g session obj pin_blob size session_id len targets pid date s =
      (CKR_OK,
        { s with trace := s.trace ++
            [Event.stdout (Msg.session_id (session_id.take len)),
             Event.stdout (Msg.pid_still_running pid),
             Event.stdout (Msg.date date),
             Event.stdout (Msg.not_logged_out_still_running pid)] }) := by
  unfold logout_session_obj print_session
  simp [hlive, State.emit]

/-- C4: for a session whose owner is not running and whose endpoint sweep
returned `CKR_OK`, the events that follow the sweep contain a call of
`C_DestroyObject` on the session object if and only if no logout failure was
recorded (`error` is `CKR_OK`) or the force flag is set. With a failure and no
force flag exactly the warning and the line "Session is not deleted" follow;
with a failure and the force flag the warning and the call of
`C_DestroyObject` follow, then the line "Session deleted due to -force option"
when the store destroyed the object (else the store's error is printed). -/
theorem logout_session_obj_destroy_gate (E : Env) (g : Globals) (session obj : Nat)
    (pin_blob : List Nat) (size : Nat) (session_id : List Nat) (len : Nat)
    (targets : ep11_target_t) (pid : Int) (date : CK_DATE) (s : State)
    (hdead : is_process_running E pid = false)
    (hsweep : (logout_sweep E g pin_blob session_id len targets pid date s).1 = CKR_OK) :
    ∃ suffix : List Event,
      (logout_session_obj E g session obj pin_blob size session_id len targets pid date s).2.trace
        = (logout_sweep E g pin_blob session_id len targets pid date s).2.trace ++ suffix ∧
      ((∃ rc, Event.C_DestroyObject session obj rc ∈ suffix) ↔
        ((logout_sweep E g pin_blob session_id len targets pid date s).2.error = CKR_OK ∨
          g.force = true)) ∧
      ((logout_sweep E g pin_blob session_id len targets pid date s).2.error ≠ CKR_OK →
        g.force = false →
        suffix = [Event.stderr Msg.not_all_apqns_logged_out,
                  Event.stderr Msg.session_not_deleted]) ∧
      ((logout_sweep E g pin_blob session_id len targets pid date s).2.error ≠ CKR_OK →
        g.force = true →
        ∃ rc, suffix = [Event.stderr Msg.not_all_apqns_logged_out,
                        Event.C_DestroyObject session obj rc,
                        if rc = CKR_OK then Event.stdout Msg.deleted_due_to_force
                        else Event.stderr (Msg.C_DestroyObject_rc rc)]) := by
  rw [logout_session_obj_dead E g session obj pin_blob size session_id len targets pid date s
    hdead]
  generalize logout_sweep E g pin_blob session_id len targets pid date s = r at hsweep ⊢
  simp only [hsweep, ne_eq, not_true_eq_false, if_false]
  by_cases herr : r.2.error = CKR_OK
  · rw [if_neg (not_not.mpr herr), logout_session_obj_destroy_trace]
    refine ⟨_, rfl, ?_, ?_, ?_⟩
    · simp [herr]
    · intro h; exact absurd herr h
    · intro h; exact absurd herr h
  · by_cases hf : g.force = false
    · rw [if_pos herr, if_pos hf]
      refine ⟨[Event.stderr Msg.not_all_apqns_logged_out,
               Event.stderr Msg.session_not_deleted], ?_, ?_, ?_, ?_⟩
      · simp [State.emit]
      · simp [herr, hf]
      · intro _ _; rfl
      · intro _ h; rw [hf] at h; exact absurd h (by decide)
    · have hf1 : g.force = true := by simpa using hf
      rw [if_pos herr, if_neg hf, logout_session_obj_destroy_trace]
      refine ⟨[Event.stderr Msg.not_all_apqns_logged_out,
        Event.C_DestroyObject session obj
          (E.C_DestroyObject (r.2.trace ++ [Event.stderr Msg.not_all_apqns_logged_out])
            session obj),
        if E.C_DestroyObject (r.2.trace ++ [Event.stderr Msg.not_all_apqns_logged_out])
            session obj = CKR_OK then Event.stdout Msg.deleted_due_to_force
        else Event.stderr (Msg.C_DestroyObject_rc
          (E.C_DestroyObject (r.2.trace ++ [Event.stderr Msg.not_all_apqns_logged_out])
            session obj))], ?_, ?_, ?_, ?_⟩
      · simp [State.emit, hf1]
      · simp [hf1]
      · intro _ h; exact absurd h hf
      · intro _ _
        exact ⟨E.C_DestroyObject (r.2.trace ++ [Event.stderr Msg.not_all_apqns_logged_out])
          session obj, rfl⟩

/-- Witness of C4: the sample session (dead owner 4100, one endpoint) whose logout
fails with `CKR_FUNCTION_FAILED`, with the force flag. -/
theorem logout_session_obj_destroy_gate_witness :
    ∃ suffix : List Event,
      (logout_session_obj (sample_env CKR_FUNCTION_FAILED) { globals_modular with force := true }
          1 7 sample_attrs.pin_blob 3 sample_id 16 sample_attrs.ep11_targets 4100
          date_2021_05_01 State.init).2.trace
        = (logout_sweep (sample_env CKR_FUNCTION_FAILED) { globals_modular with force := true }
            sample_attrs.pin_blob sample_id 16 sample_attrs.ep11_targets 4100
            date_2021_05_01 State.init).2.trace ++ suffix ∧
      ((∃ rc, Event.C_DestroyObject 1 7 rc ∈ suffix) ↔
        ((logout_sweep (sample_env CKR_FUNCTION_FAILED) { globals_modular with force := true }
            sample_attrs.pin_blob sample_id 16 sample_attrs.ep11_targets 4100
            date_2021_05_01 State.init).2.error = CKR_OK ∨
          ({ globals_modular with force := true } : Globals).force = true)) ∧
      ((logout_sweep (sample_env CKR_FUNCTION_FAILED) { globals_modular with force := true }
            sample_attrs.pin_blob sample_id 16 sample_attrs.ep11_targets 4100
            date_2021_05_01 State.init).2.error ≠ CKR_OK →
        ({ globals_modular with force := true } : Globals).force = false →
        suffix = [Event.stderr Msg.not_all_apqns_logged_out,
                  Event.stderr Msg.session_not_deleted]) ∧
      ((logout_sweep (sample_env CKR_FUNCTION_FAILED) { globals_modular with force := true }
            sample_attrs.pin_blob sample_id 16 sample_attrs.ep11_targets 4100
            date_2021_05_01 State.init).2.error ≠ CKR_OK →
        ({ globals_modular with force := true } : Globals).force = true →
        ∃ rc, suffix = [Event.stderr Msg.not_all_apqns_logged_out,
                        Event.C_DestroyObject 1 7 rc,
                        if rc = CKR_OK then Event.stdout Msg.deleted_due_to_force
                        else Event.stderr (Msg.C_DestroyObject_rc rc)]) :=
  logout_session_obj_destroy_gate (sample_env CKR_FUNCTION_FAILED)
    { globals_modular with force := true } 1 7 sample_attrs.pin_blob 3 sample_id 16
    sample_attrs.ep11_targets 4100 date_2021_05_01 State.init (by decide) (by decide)

/-- C5: for a session whose owner pid still has a live process,
`logout_session_obj` prints the session (with the mark "still running") and
the line "Session is not logged out", and returns `CKR_OK`. Nothing else
happens: no `m_add_module`, `m_Logout` or `C_DestroyObject` call is made, and
`count` and `error` keep their values, whatever the force flag, the endpoints
and the library are. -/
theorem logout_session_obj_live_owner (E : Env) (g : Globals) (session obj : Nat)
    (pin_blob : List Nat) (size : Nat) (session_id : List Nat) (len : Nat)
    (targets : ep11_target_t) (pid : Int) (date : CK_DATE) (s : State)
    (hlive : is_process_running E pid = true) :
    logout_session_obj E g session obj pin_blob size session_id len targets pid date s =
      (CKR_OK,
        { s with trace := s.trace ++
            [Event.stdout (Msg.session_id (session_id.take len)),
             Event.stdout (Msg.pid_still_running pid),
             Event.stdout (Msg.date date),
             Event.stdout (Msg.not_logged_out_still_running pid)] }) := by
  exact logout_session_obj_running E g session obj pin_blob size session_id len targets pid
    date s hlive

/-- Witness of C5: a session of the live pid 4200 under `logout -force`. -/
theorem logout_session_obj_live_owner_witness :
    logout_session_obj (sample_env CKR_OK) { globals_modular with force := true } 1 7
        [1, 2, 3] 3 sample_id 16 sample_attrs.ep11_targets 4200 date_2024_01_01 State.init =
      (CKR_OK,
        { State.init with trace := State.init.trace ++
            [Event.stdout (Msg.session_id (sample_id.take 16)),
             Event.stdout (Msg.pid_still_running 4200),
             Event.stdout (Msg.date date_2024_01_01),
             Event.stdout (Msg.not_logged_out_still_running 4200)] }) :=
  logout_session_obj_live_owner (sample_env CKR_OK) { globals_modular with force := true } 1 7
    [1, 2, 3] 3 sample_id 16 sample_attrs.ep11_targets 4200 date_2024_01_01 State.init
    (by decide)

/-- Counterexample to C6: the sample session (dead owner, one endpoint) whose
logout fails with `CKR_FUNCTION_FAILED`, without the force flag. The failure is
recorded (`m_Logout` answered 6 and `error` is 6), yet `logout_session_obj` and
`logout_sessions` both return 0. -/
theorem logout_failure_recorded_result_zero :
    Event.m_Logout (some [1, 2, 3]) (target_t.handle 65538) CKR_FUNCTION_FAILED ∈
      (logout_session_obj (sample_env CKR_FUNCTION_FAILED) globals_modular 1 7 [1, 2, 3] 3
        sample_id 16 sample_attrs.ep11_targets 4100 date_2021_05_01 State.init).2.trace ∧
    (logout_session_obj (sample_env CKR_FUNCTION_FAILED) globals_modular 1 7 [1, 2, 3] 3
      sample_id 16 sample_attrs.ep11_targets 4100 date_2021_05_01 State.init).2.error =
        CKR_FUNCTION_FAILED ∧
    (logout_session_obj (sample_env CKR_FUNCTION_FAILED) globals_modular 1 7 [1, 2, 3] 3
      sample_id 16 sample_attrs.ep11_targets 4100 date_2021_05_01 State.init).1 = 0 ∧
    (logout_sessions (sample_env CKR_FUNCTION_FAILED) globals_modular 1 State.init).2.error =
        CKR_FUNCTION_FAILED ∧
    (logout_sessions (sample_env CKR_FUNCTION_FAILED) globals_modular 1 State.init).1 = 0 := by
  decide

/-- C6, amended: a recorded logout failure does not by itself make the result
of `logout_session_obj` non-zero. For a running owner the result is `CKR_OK`.
For a dead owner: when the sweep returns a code other than `CKR_OK` that code
is the result; when the sweep returns `CKR_OK`, a failure is recorded and the
force flag is not set, the result is `CKR_OK` and the failure code stays in
`error`; in the remaining cases the result is the answer of
`C_DestroyObject`. -/
theorem logout_session_obj_result (E : Env) (g : Globals) (session obj : Nat)
    (pin_blob : List Nat) (size : Nat) (session_id : List Nat) (len : Nat)
    (targets : ep11_target_t) (pid : Int) (date : CK_DATE) (s : State) :
    (is_process_running E pid = true →
      (logout_session_obj E g session obj pin_blob size session_id len targets pid date s).1
        = CKR_OK) ∧
    (is_process_running E pid = false →
      (logout_sweep E g pin_blob session_id len targets pid date s).1 ≠ CKR_OK →
      (logout_session_obj E g session obj pin_blob size session_id len targets pid date s).1
        = (logout_sweep E g pin_blob session_id len targets pid date s).1) ∧
    (is_process_running E pid = false →
      (logout_sweep E g pin_blob session_id len targets pid date s).1 = CKR_OK →
      (logout_sweep E g pin_blob session_id len targets pid date s).2.error ≠ CKR_OK →
      g.force = false →
      (logout_session_obj E g session obj pin_blob size session_id len targets pid date s).1
        = CKR_OK ∧
      (logout_session_obj E g session obj pin_blob size session_id len targets pid date s).2.error
        = (logout_sweep E g pin_blob session_id len targets pid date s).2.error) ∧
    (is_process_running E pid = false →
      (logout_sweep E g pin_blob session_id len targets pid date s).1 = CKR_OK →
      ((logout_sweep E g pin_blob session_id len targets pid date s).2.error = CKR_OK ∨
        g.force = true) →
      ∃ tr, (logout_session_obj E g session obj pin_blob size session_id len targets pid
              date s).1 = E.C_DestroyObject tr session obj ∧
        Event.C_DestroyObject session obj (E.C_DestroyObject tr session obj) ∈
          (logout_session_obj E g session obj pin_blob size session_id len targets pid
              date s).2.trace) := by
  have hdestroy : ∀ s' : State,
      (logout_session_obj_destroy E g session obj s').1 = E.C_DestroyObject s'.trace session obj ∧
      Event.C_DestroyObject session obj (E.C_DestroyObject s'.trace session obj) ∈
        (logout_session_obj_destroy E g session obj s').2.trace := by
    intro s'
    constructor
    · unfold logout_session_obj_destroy
      by_cases h : E.C_DestroyObject s'.trace session obj = CKR_OK
      · simp [h]
      · simp [h]
    · rw [logout_session_obj_destroy_trace]
      simp
  refine ⟨?_, ?_, ?_, ?_⟩
  · intro hlive
    rw [logout_session_obj_running E g session obj pin_blob size session_id len targets
      pid date s hlive]
  · intro hdead hsw
    rw [logout_session_obj_dead E g session obj pin_blob size session_id len targets pid date s
      hdead]
    simp only [hsw, ne_eq, not_false_eq_true, if_true]
  · intro hdead hsw herr hf
    rw [logout_session_obj_dead E g session obj pin_blob size session_id len targets pid date s
      hdead]
    simp only [hsw, ne_eq, not_true_eq_false, if_false]
    rw [if_pos herr, if_pos hf]
    exact ⟨rfl, rfl⟩
  · intro hdead hsw hor
    rw [logout_session_obj_dead E g session obj pin_blob size session_id len targets pid date s
      hdead]
    simp only [hsw, ne_eq, not_true_eq_false, if_false]
    by_cases herr : (logout_sweep E g pin_blob session_id len targets pid date s).2.error = CKR_OK
    · rw [if_neg (not_not.mpr herr)]
      exact ⟨_, hdestroy _⟩
    · have hf : g.force = true := by
        cases hor with
        | inl h => exact absurd h herr
        | inr h => exact h
      rw [if_pos herr, if_neg (by simp [hf])]
      exact ⟨_, hdestroy _⟩

/-- Witness of C6, amended: the sample session whose logout fails, without the force
flag: the result is `CKR_OK` and `error` keeps the failure code. -/
theorem logout_session_obj_result_witness :
    (logout_session_obj (sample_env CKR_FUNCTION_FAILED) globals_modular 1 7 [1, 2, 3] 3
      sample_id 16 sample_attrs.ep11_targets 4100 date_2021_05_01 State.init).1 = CKR_OK ∧
    (logout_session_obj (sample_env CKR_FUNCTION_FAILED) globals_modular 1 7 [1, 2, 3] 3
      sample_id 16 sample_attrs.ep11_targets 4100 date_2021_05_01 State.init).2.error =
    (logout_sweep (sample_env CKR_FUNCTION_FAILED) globals_modular [1, 2, 3] sample_id 16
      sample_attrs.ep11_targets 4100 date_2021_05_01 State.init).2.error :=
  (logout_session_obj_result (sample_env CKR_FUNCTION_FAILED) globals_modular 1 7 [1, 2, 3] 3
    sample_id 16 sample_attrs.ep11_targets 4100 date_2021_05_01 State.init).2.2.1
    (by decide) (by decide) (by decide) (by decide)

/-! ## The orchestrator on an allow-list -/

theorem handle_all_ep11_cards_loop_calls (apqns : List Int) (h : adapter_handler_t)
    (data : Option (List Nat)) (n : Nat) :
    ∀ (i : Nat) (s : State), ∃ rcs : List CK_RV,
      (handle_all_ep11_cards_loop apqns (traced h) data n i s).2.calls =
        s.calls ++ List.zipWith (fun p rc => (p.1, p.2, rc))
          ((List.range n).map (fun k => allow_list_entry apqns (i + k))) rcs ∧
      (((handle_all_ep11_cards_loop apqns (traced h) data n i s).1 = CKR_OK ∧
          rcs = List.replicate n CKR_OK) ∨
        ((handle_all_ep11_cards_loop apqns (traced h) data n i s).1 ≠ CKR_OK ∧
          ∃ k, k < n ∧ rcs = List.replicate k CKR_OK ++
            [(handle_all_ep11_cards_loop apqns (traced h) data n i s).1])) := by
  induction n with
  | zero =>
    intro i s
    exact ⟨[], by simp [handle_all_ep11_cards_loop], Or.inl ⟨rfl, rfl⟩⟩
  | succ n ih =>
    intro i s
    have hrange : (List.range (n + 1)).map (fun k => allow_list_entry apqns (i + k)) =
        allow_list_entry apqns i ::
          (List.range n).map (fun k => allow_list_entry apqns (i + 1 + k)) := by
      rw [List.range_succ_eq_map, List.map_cons, List.map_map]
      congr 1
      apply List.map_congr_left
      intro k _
      simp only [Function.comp_apply]
      congr 1
      omega
    rw [hrange]
    by_cases hrc : (traced h (allow_list_entry apqns i).1 (allow_list_entry apqns i).2 data s).1
        = CKR_OK
    · obtain ⟨rcs, hcalls, hcase⟩ := ih (i + 1)
        (traced h (allow_list_entry apqns i).1 (allow_list_entry apqns i).2 data s).2
      have hstep : handle_all_ep11_cards_loop apqns (traced h) data (n + 1) i s =
          handle_all_ep11_cards_loop apqns (traced h) data n (i + 1)
            (traced h (allow_list_entry apqns i).1 (allow_list_entry apqns i).2 data s).2 := by
        rw [handle_all_ep11_cards_loop]
        exact if_neg (not_not.mpr hrc)
      rw [hstep]
      refine ⟨CKR_OK :: rcs, ?_, ?_⟩
      · rw [hcalls]
        have hrc1 : (h (allow_list_entry apqns i).1 (allow_list_entry apqns i).2 data s).1
            = CKR_OK := hrc
        simp [traced, hrc1]
      · cases hcase with
        | inl hok => exact Or.inl ⟨hok.1, by rw [hok.2]; rfl⟩
        | inr hbad =>
          obtain ⟨hne, k, hk, hrcs⟩ := hbad
          exact Or.inr ⟨hne, k + 1, by omega, by rw [hrcs]; rfl⟩
    · have hstep : handle_all_ep11_cards_loop apqns (traced h) data (n + 1) i s =
          traced h (allow_list_entry apqns i).1 (allow_list_entry apqns i).2 data s := by
        rw [handle_all_ep11_cards_loop]
        exact if_pos hrc
      rw [hstep]
      refine ⟨[(traced h (allow_list_entry apqns i).1 (allow_list_entry apqns i).2 data s).1],
        ?_, Or.inr ⟨hrc, 0, by omega, rfl⟩⟩
      simp [traced]

/-- C7: for an explicit allow-list of length `n > 0`, `handle_all_ep11_cards`
invokes the handler on the listed pairs in list order, once each: the recorded
invocations are the first entries of the allow-list paired with their results.
Either every invocation returned `CKR_OK`, all `n` entries were visited and the
result is `CKR_OK`; or for some `k < n` the entries `0 .. k` were visited, the
first `k` returned `CKR_OK`, entry `k` returned the non-OK result and that is
the result. The sysfs tree plays no part: the outcome is the same for every
collaborator. -/
theorem handle_all_ep11_cards_allow_list (E : Env) (t : ep11_target_t)
    (h : adapter_handler_t) (data : Option (List Nat)) (s : State)
    (hlen : 0 < t.length) :
    (∃ rcs : List CK_RV,
      (handle_all_ep11_cards E t (traced h) data s).2.calls =
        s.calls ++ List.zipWith (fun p rc => (p.1, p.2, rc)) (allow_list t) rcs ∧
      (((handle_all_ep11_cards E t (traced h) data s).1 = CKR_OK ∧
          rcs = List.replicate t.length.toNat CKR_OK) ∨
        ((handle_all_ep11_cards E t (traced h) data s).1 ≠ CKR_OK ∧
          ∃ k, k < t.length.toNat ∧ rcs = List.replicate k CKR_OK ++
            [(handle_all_ep11_cards E t (traced h) data s).1]))) ∧
    (∀ E2 : Env, handle_all_ep11_cards E2 t (traced h) data s =
      handle_all_ep11_cards E t (traced h) data s) := by
  have hunf : ∀ E1 : Env, handle_all_ep11_cards E1 t (traced h) data s =
      handle_all_ep11_cards_loop t.apqns (traced h) data t.length.toNat 0 s := by
    intro E1
    unfold handle_all_ep11_cards
    rw [if_pos (by omega)]
  constructor
  · rw [hunf E]
    obtain ⟨rcs, hcalls, hcase⟩ :=
      handle_all_ep11_cards_loop_calls t.apqns h data t.length.toNat 0 s
    refine ⟨rcs, ?_, hcase⟩
    rw [hcalls]
    simp [allow_list]
  · intro E2
    rw [hunf E, hunf E2]

/-- Witness of C7: the allow-list (1, 1), (1, 2), (2, 1) with a handler that fails on
domain 2: two invocations are recorded and the failure is the result. -/
theorem handle_all_ep11_cards_allow_list_witness :
    (handle_all_ep11_cards (sample_env CKR_OK) sample_allow_list
        (traced (failing_handler 2)) none State.init).2.calls =
      [(1, 1, CKR_OK), (1, 2, CKR_FUNCTION_FAILED)] ∧
    (handle_all_ep11_cards (sample_env CKR_OK) sample_allow_list
        (traced (failing_handler 2)) none State.init).1 = CKR_FUNCTION_FAILED ∧
    (∃ rcs : List CK_RV,
      (handle_all_ep11_cards (sample_env CKR_OK) sample_allow_list
          (traced (failing_handler 2)) none State.init).2.calls =
        State.init.calls ++
          List.zipWith (fun p rc => (p.1, p.2, rc)) (allow_list sample_allow_list) rcs ∧
      (((handle_all_ep11_cards (sample_env CKR_OK) sample_allow_list
            (traced (failing_handler 2)) none State.init).1 = CKR_OK ∧
          rcs = List.replicate sample_allow_list.length.toNat CKR_OK) ∨
        ((handle_all_ep11_cards (sample_env CKR_OK) sample_allow_list
            (traced (failing_handler 2)) none State.init).1 ≠ CKR_OK ∧
          ∃ k, k < sample_allow_list.length.toNat ∧ rcs = List.replicate k CKR_OK ++
            [(handle_all_ep11_cards (sample_env CKR_OK) sample_allow_list
              (traced (failing_handler 2)) none State.init).1]))) :=
  ⟨by decide, by decide,
    (handle_all_ep11_cards_allow_list (sample_env CKR_OK) sample_allow_list (failing_handler 2)
      none State.init (by decide)).1⟩

/-- Evaluation for C8: discovery over the sample sysfs tree (`card00` with the
domains 1 and 2, then `card01` with the domain 2). With a handler that fails on
domain 1, the first invocation fails, the second domain of `card00` is skipped,
yet the handler is invoked on the endpoint of `card01` and the result is
`CKR_OK`, not the failure. The same happens with `logout_handler` when
`m_add_module` fails on every endpoint. -/
theorem scan_goes_on_after_handler_failure :
    handle_all_ep11_cards (sample_env CKR_OK) any_target (traced (failing_handler 1)) none
        State.init =
      (CKR_OK,
        { trace := [Event.stderr (Msg.failed_to_open_file "/sys/devices/ap/card00/config".toList),
                    Event.stderr (Msg.failed_to_open_file "/sys/devices/ap/card00/chkstop".toList),
                    Event.stderr (Msg.failed_to_open_file "/sys/devices/ap/card01/config".toList),
                    Event.stderr (Msg.failed_to_open_file "/sys/devices/ap/card01/chkstop".toList)],
          count := 0, error := CKR_OK,
          calls := [(0, 1, CKR_FUNCTION_FAILED), (1, 2, CKR_OK)] }) ∧
    (handle_all_ep11_cards { sample_env CKR_OK with m_add_module := fun _ _ => (5, 0) } any_target
        (traced (logout_handler { sample_env CKR_OK with m_add_module := fun _ _ => (5, 0) }
          globals_modular)) (some [1, 2, 3]) State.init).1 = CKR_OK ∧
    (handle_all_ep11_cards { sample_env CKR_OK with m_add_module := fun _ _ => (5, 0) } any_target
        (traced (logout_handler { sample_env CKR_OK with m_add_module := fun _ _ => (5, 0) }
          globals_modular)) (some [1, 2, 3]) State.init).2.calls =
      [(0, 1, CKR_FUNCTION_FAILED), (1, 2, CKR_FUNCTION_FAILED)] := by
  decide

/-! ## Module registration and release in the handlers -/

theorem module_events_append (l1 l2 : List Event) :
    module_events (l1 ++ l2) = module_events l1 ++ module_events l2 := by
  simp [module_events]

theorem continues_refl (s : State) : Continues s s [] :=
  ⟨[], by simp, rfl⟩

theorem continues_trans {s1 s2 s3 : State} {a b : List Event}
    (h1 : Continues s1 s2 a) (h2 : Continues s2 s3 b) : Continues s1 s3 (a ++ b) := by
  obtain ⟨l1, hl1, hm1⟩ := h1
  obtain ⟨l2, hl2, hm2⟩ := h2
  exact ⟨l1 ++ l2, by rw [hl2, hl1, List.append_assoc], by rw [module_events_append, hm1, hm2]⟩

theorem continues_emit {s1 s2 : State} {evs : List Event} (e : Event)
    (h : Continues s1 s2 evs) : Continues s1 (s2.emit e) (evs ++ module_events [e]) :=
  continues_trans h ⟨[e], rfl, rfl⟩

theorem continues_emit_other {s1 s2 : State} {evs : List Event} (e : Event)
    (he : module_events [e] = []) (h : Continues s1 s2 evs) : Continues s1 (s2.emit e) evs := by
  have := continues_emit e h
  rwa [he, List.append_nil] at this

theorem continues_after {s1 s2 s3 : State} {evs : List Event}
    (h1 : Continues s1 s2 []) (h2 : Continues s2 s3 evs) : Continues s1 s3 evs := by
  have := continues_trans h1 h2
  simpa using this

theorem logout_handler_tail_continues (E : Env) (g : Globals) (adapter domain : Nat)
    (data : Option (List Nat)) (module : Option XCP_Module) (target : target_t) (s : State)
    (hrm : g.dll_m_rm_module = true) :
    Continues s (logout_handler_tail E g adapter domain data module target s).2
      [Event.m_rm_module module target] := by
  unfold logout_handler_tail
  simp only [hrm, if_true]
  split
  · exact continues_emit (Event.m_rm_module module target)
      (continues_emit_other _ (by rfl) (continues_emit_other _ (by rfl) (continues_refl s)))
  · exact continues_emit (Event.m_rm_module module target)
      (continues_emit_other _ (by rfl) (continues_refl s))

theorem status_handler_done_continues (g : Globals) (module : Option XCP_Module)
    (target : target_t) (res_allocated : Bool) (s : State) (hrm : g.dll_m_rm_module = true) :
    Continues s (status_handler_done g module target res_allocated s).2
      [Event.m_rm_module module target] := by
  unfold status_handler_done
  simp only [hrm, if_true]
  cases res_allocated with
  | false => exact continues_emit (Event.m_rm_module module target) (continues_refl s)
  | true =>
    exact continues_emit Event.free
      (continues_emit (Event.m_rm_module module target) (continues_refl s))

theorem status_handler_no_info_continues (g : Globals) (module : Option XCP_Module)
    (target : target_t) (res_allocated found : Bool) (s : State)
    (hrm : g.dll_m_rm_module = true) :
    Continues s (status_handler_no_info g module target res_allocated found s).2
      [Event.m_rm_module module target] := by
  unfold status_handler_no_info
  cases found with
  | true => exact status_handler_done_continues g module target res_allocated s hrm
  | false =>
    exact continues_after (continues_emit_other _ (by rfl) (continues_refl s))
      (status_handler_done_continues g module target res_allocated _ hrm)

theorem status_handler_loop_continues (E : Env) (res : List Nat) (limit fuel : Nat) :
    ∀ (i : Nat) (found : Bool) (s : State),
      Continues s (status_handler_loop E res limit fuel i found s).2 [] := by
  induction fuel with
  | zero =>
    intro i found s
    exact continues_refl s
  | succ fuel ih =>
    intro i found s
    unfold status_handler_loop
    split
    · split
      · exact continues_after (continues_emit_other _ (by rfl) (continues_refl s)) (ih _ _ _)
      · split
        · exact continues_after (continues_emit_other _ (by rfl) (continues_refl s)) (ih _ _ _)
        · exact ih _ _ _
    · exact continues_refl s

theorem status_handler_tail_continues (E : Env) (g : Globals) (adapter domain : Nat)
    (module : Option XCP_Module) (target : target_t) (s : State)
    (hrm : g.dll_m_rm_module = true) :
    Continues s (status_handler_tail E g adapter domain module target s).2
      [Event.m_rm_module module target] := by
  unfold status_handler_tail
  simp only []
  split
  · exact continues_after
      (continues_emit_other _ (by rfl) (continues_emit_other _ (by rfl)
        (continues_emit_other _ (by rfl) (continues_refl s))))
      (status_handler_done_continues g module target false _ hrm)
  · split
    · exact continues_after
        (continues_emit_other _ (by rfl) (continues_emit_other _ (by rfl) (continues_refl s)))
        (status_handler_no_info_continues g module target false false _ hrm)
    · split
      · exact continues_after
          (continues_emit_other _ (by rfl) (continues_emit_other _ (by rfl)
            (continues_emit_other _ (by rfl) (continues_emit_other _ (by rfl) (continues_refl s)))))
          (status_handler_done_continues g module target false _ hrm)
      · split
        · exact continues_after
            (continues_emit_other _ (by rfl) (continues_emit_other _ (by rfl)
              (continues_emit_other _ (by rfl) (continues_emit_other _ (by rfl)
                (continues_emit_other _ (by rfl) (continues_refl s))))))
            (status_handler_done_continues g module target true _ hrm)
        · exact continues_after
            (continues_after
              (continues_emit_other _ (by rfl) (continues_emit_other _ (by rfl)
                (continues_emit_other _ (by rfl) (continues_emit_other _ (by rfl) (continues_refl s)))))
              (status_handler_loop_continues E _ _ _ _ _ _))
            (status_handler_no_info_continues g module target true _ _ hrm)

theorem logout_handler_continues (E : Env) (g : Globals) (adapter domain : Nat)
    (data : Option (List Nat)) (s : State)
    (hadd : g.dll_m_add_module = true) (hrm : g.dll_m_rm_module = true) :
    Continues s (logout_handler E g adapter domain data s).2
      (if (E.m_add_module s.trace (make_module g adapter domain)).1 = 0 then
        [Event.m_add_module (make_module g adapter domain) 0
           (E.m_add_module s.trace (make_module g adapter domain)).2,
         Event.m_rm_module (some (make_module g adapter domain))
           (target_t.handle (E.m_add_module s.trace (make_module g adapter domain)).2)]
       else
        [Event.m_add_module (make_module g adapter domain)
           (E.m_add_module s.trace (make_module g adapter domain)).1
           (E.m_add_module s.trace (make_module g adapter domain)).2]) := by
  unfold logout_handler
  simp only [hadd, if_true]
  by_cases h0 : (E.m_add_module s.trace (make_module g adapter domain)).1 = 0
  · rw [if_neg (not_not.mpr h0), if_pos h0]
    have h1 := continues_emit (Event.m_add_module (make_module g adapter domain)
      (E.m_add_module s.trace (make_module g adapter domain)).1
      (E.m_add_module s.trace (make_module g adapter domain)).2) (continues_refl s)
    have h2 := continues_trans h1 (logout_handler_tail_continues E g adapter domain data
      (some (make_module g adapter domain))
      (target_t.handle (E.m_add_module s.trace (make_module g adapter domain)).2) _ hrm)
    generalize E.m_add_module s.trace (make_module g adapter domain) = r at h0 h1 h2 ⊢
    obtain ⟨rc, tgt⟩ := r
    simp only at h0
    subst h0
    exact h2
  · rw [if_pos h0, if_neg h0]
    exact continues_emit _ (continues_refl s)

theorem status_handler_continues (E : Env) (g : Globals) (adapter domain : Nat)
    (data : Option (List Nat)) (s : State)
    (hadd : g.dll_m_add_module = true) (hrm : g.dll_m_rm_module = true) :
    Continues s (status_handler E g adapter domain data s).2
      (if (E.m_add_module s.trace (make_module g adapter domain)).1 = 0 then
        [Event.m_add_module (make_module g adapter domain) 0
           (E.m_add_module s.trace (make_module g adapter domain)).2,
         Event.m_rm_module (some (make_module g adapter domain))
           (target_t.handle (E.m_add_module s.trace (make_module g adapter domain)).2)]
       else
        [Event.m_add_module (make_module g adapter domain)
           (E.m_add_module s.trace (make_module g adapter domain)).1
           (E.m_add_module s.trace (make_module g adapter domain)).2]) := by
  unfold status_handler
  simp only [hadd, if_true]
  by_cases h0 : (E.m_add_module s.trace (make_module g adapter domain)).1 = 0
  · rw [if_neg (not_not.mpr h0), if_pos h0]
    have h1 := continues_emit (Event.m_add_module (make_module g adapter domain)
      (E.m_add_module s.trace (make_module g adapter domain)).1
      (E.m_add_module s.trace (make_module g adapter domain)).2) (continues_refl s)
    have h2 := continues_trans h1 (status_handler_tail_continues E g adapter domain
      (some (make_module g adapter domain))
      (target_t.handle (E.m_add_module s.trace (make_module g adapter domain)).2) _ hrm)
    generalize E.m_add_module s.trace (make_module g adapter domain) = r at h0 h1 h2 ⊢
    obtain ⟨rc, tgt⟩ := r
    simp only at h0
    subst h0
    exact h2
  · rw [if_pos h0, if_neg h0]
    exact continues_emit_other _ (by rfl) (continues_emit _ (continues_refl s))

theorem filter_filter_of_imp (p q : Event → Bool) (hpq : ∀ e, p e = true → q e = true)
    (l : List Event) : (l.filter q).filter p = l.filter p := by
  induction l with
  | nil => rfl
  | cons e l ih =>
    by_cases hq : q e = true
    · by_cases hp : p e = true
      · simp [List.filter_cons, hq, hp, ih]
      · simp [List.filter_cons, hq, hp, ih]
    · have hp : ¬ p e = true := fun h => hq (hpq e h)
      simp [List.filter_cons, hq, hp, ih]

theorem count_m_rm_module_module_events (l : List Event) :
    count_m_rm_module (module_events l) = count_m_rm_module l := by
  unfold count_m_rm_module module_events
  rw [filter_filter_of_imp]
  intro e
  cases e <;> simp

theorem count_m_add_module_ok_module_events (l : List Event) :
    count_m_add_module_ok (module_events l) = count_m_add_module_ok l := by
  unfold count_m_add_module_ok module_events
  rw [filter_filter_of_imp]
  intro e
  cases e <;> simp

theorem balanced_of_continues (s : State) (r : CK_RV × State) (module : XCP_Module)
    (rc target : Nat)
    (h : Continues s r.2
      (if rc = 0 then [Event.m_add_module module 0 target,
                       Event.m_rm_module (some module) (target_t.handle target)]
       else [Event.m_add_module module rc target])) :
    ∃ suffix, r.2.trace = s.trace ++ suffix ∧
      module_events suffix =
        (if rc = 0 then [Event.m_add_module module 0 target,
                         Event.m_rm_module (some module) (target_t.handle target)]
         else [Event.m_add_module module rc target]) ∧
      count_m_rm_module suffix = count_m_add_module_ok suffix := by
  obtain ⟨l, hl, hm⟩ := h
  refine ⟨l, hl, hm, ?_⟩
  rw [← count_m_rm_module_module_events, ← count_m_add_module_ok_module_events, hm]
  by_cases h0 : rc = 0
  · simp [h0, count_m_rm_module, count_m_add_module_ok]
  · simp [h0, count_m_rm_module, count_m_add_module_ok]

/-- C9: under the Modular generation (both `m_add_module` and `m_rm_module`
were found, which is the only way `main` leaves either pointer non-NULL), every
invocation of `logout_handler` and of `status_handler` makes exactly these
module calls: the registration, and, when it returned 0, one release with the
same descriptor and the handle that the registration wrote; no release when the
registration failed. The number of releases equals the number of successful
registrations, whatever the library answers afterwards (logout result,
capability query, allocation, capability list). -/
theorem handlers_release_module (E : Env) (g : Globals) (adapter domain : Nat)
    (data : Option (List Nat)) (s : State)
    (hadd : g.dll_m_add_module = true) (hrm : g.dll_m_rm_module = true) :
    (∃ suffix, (logout_handler E g adapter domain data s).2.trace = s.trace ++ suffix ∧
      module_events suffix =
        (if (E.m_add_module s.trace (make_module g adapter domain)).1 = 0 then
          [Event.m_add_module (make_module g adapter domain) 0
             (E.m_add_module s.trace (make_module g adapter domain)).2,
           Event.m_rm_module (some (make_module g adapter domain))
             (target_t.handle (E.m_add_module s.trace (make_module g adapter domain)).2)]
         else
          [Event.m_add_module (make_module g adapter domain)
             (E.m_add_module s.trace (make_module g adapter domain)).1
             (E.m_add_module s.trace (make_module g adapter domain)).2]) ∧
      count_m_rm_module suffix = count_m_add_module_ok suffix) ∧
    (∃ suffix, (status_handler E g adapter domain data s).2.trace = s.trace ++ suffix ∧
      module_events suffix =
        (if (E.m_add_module s.trace (make_module g adapter domain)).1 = 0 then
          [Event.m_add_module (make_module g adapter domain) 0
             (E.m_add_module s.trace (make_module g adapter domain)).2,
           Event.m_rm_module (some (make_module g adapter domain))
             (target_t.handle (E.m_add_module s.trace (make_module g adapter domain)).2)]
         else
          [Event.m_add_module (make_module g adapter domain)
             (E.m_add_module s.trace (make_module g adapter domain)).1
             (E.m_add_module s.trace (make_module g adapter domain)).2]) ∧
      count_m_rm_module suffix = count_m_add_module_ok suffix) ∧
    (∀ (g0 : Globals) (add rm : Bool),
      (main_load_modules g0 add rm).dll_m_add_module =
        (main_load_modules g0 add rm).dll_m_rm_module) := by
  refine ⟨?_, ?_, ?_⟩
  · exact balanced_of_continues s _ _ _ _
      (logout_handler_continues E g adapter domain data s hadd hrm)
  · exact balanced_of_continues s _ _ _ _
      (status_handler_continues E g adapter domain data s hadd hrm)
  · intro g0 add rm
    cases add <;> cases rm <;> rfl

/-- Witness of C9: the endpoint (1, 2) under the sample collaborators, where the
registration succeeds with the handle 65538 and the logout call fails. -/
theorem handlers_release_module_witness :
    module_events (logout_handler (sample_env CKR_FUNCTION_FAILED) globals_modular 1 2
        (some [1, 2, 3]) State.init).2.trace =
      [Event.m_add_module (make_module globals_modular 1 2) 0 65538,
       Event.m_rm_module (some (make_module globals_modular 1 2)) (target_t.handle 65538)] ∧
    (∃ suffix, (status_handler (sample_env CKR_FUNCTION_FAILED) globals_modular 1 2
        (some [1, 2, 3]) State.init).2.trace = State.init.trace ++ suffix ∧
      module_events suffix =
        (if ((sample_env CKR_FUNCTION_FAILED).m_add_module State.init.trace
              (make_module globals_modular 1 2)).1 = 0 then
          [Event.m_add_module (make_module globals_modular 1 2) 0
             ((sample_env CKR_FUNCTION_FAILED).m_add_module State.init.trace
               (make_module globals_modular 1 2)).2,
           Event.m_rm_module (some (make_module globals_modular 1 2))
             (target_t.handle ((sample_env CKR_FUNCTION_FAILED).m_add_module State.init.trace
               (make_module globals_modular 1 2)).2)]
         else
          [Event.m_add_module (make_module globals_modular 1 2)
             ((sample_env CKR_FUNCTION_FAILED).m_add_module State.init.trace
               (make_module globals_modular 1 2)).1
             ((sample_env CKR_FUNCTION_FAILED).m_add_module State.init.trace
               (make_module globals_modular 1 2)).2]) ∧
      count_m_rm_module suffix = count_m_add_module_ok suffix) :=
  ⟨by decide,
    (handlers_release_module (sample_env CKR_FUNCTION_FAILED) globals_modular 1 2
      (some [1, 2, 3]) State.init (by decide) (by decide)).2.1⟩

/-! ## The logout sweep -/

theorem last_failure_append (e0 : CK_RV) (a b : List CK_RV) :
    last_failure e0 (a ++ b) = last_failure (last_failure e0 a) b := by
  unfold last_failure
  rw [List.filter_append, List.getLast?_append]
  cases (List.filter logout_failed b).getLast? with
  | none => rfl
  | some x => rfl

theorem logout_results_append (l1 l2 : List Event) :
    logout_results (l1 ++ l2) = logout_results l1 ++ logout_results l2 := by
  simp [logout_results]

theorem swept_refl (s : State) : Swept s s [] :=
  ⟨by simp, [], by simp, rfl, rfl⟩

theorem swept_trans {s1 s2 s3 : State} {a b : List (Nat × Nat)}
    (h1 : Swept s1 s2 a) (h2 : Swept s2 s3 b) : Swept s1 s3 (a ++ b) := by
  obtain ⟨hc1, l1, ht1, hn1, he1⟩ := h1
  obtain ⟨hc2, l2, ht2, hn2, he2⟩ := h2
  refine ⟨by rw [hc2, hc1]; simp, l1 ++ l2, by rw [ht2, ht1, List.append_assoc], ?_, ?_⟩
  · rw [logout_results_append, List.length_append, List.length_append, hn1, hn2]
  · rw [logout_results_append, last_failure_append, he2, he1]

theorem swept_emit {s1 s2 : State} {eps : List (Nat × Nat)} (e : Event)
    (he : logout_results [e] = []) (h : Swept s1 s2 eps) : Swept s1 (s2.emit e) eps := by
  have h2 : Swept s2 (s2.emit e) [] := ⟨by simp [State.emit], [e], rfl, by rw [he]; rfl,
    by rw [he]; rfl⟩
  simpa using swept_trans h h2

theorem file_fgets_fst (E : Env) (fname : List Char) (buflen : Nat) (s : State) :
    (file_fgets E fname buflen s).1 = (file_fgets_result E fname buflen).1 := by
  unfold file_fgets_result file_fgets
  cases h1 : E.fopen fname with
  | none => rfl
  | some content =>
    simp only []
    cases h2 : fgets (buflen - 1) content with
    | nil => rfl
    | cons c line =>
      simp only []
      by_cases hc : (cstr (List.takeWhile (fun x => x != '\n') (c :: line))).length = 0
      · simp only [hc, if_true]
      · simp only [hc, if_false]

theorem file_fgets_buf (E : Env) (fname : List Char) (buflen : Nat) (s : State) :
    (file_fgets E fname buflen s).2.1 = (file_fgets_result E fname buflen).2 := by
  unfold file_fgets_result file_fgets
  cases h1 : E.fopen fname with
  | none => rfl
  | some content =>
    simp only []
    cases h2 : fgets (buflen - 1) content with
    | nil => rfl
    | cons c line =>
      simp only []
      by_cases hc : (cstr (List.takeWhile (fun x => x != '\n') (c :: line))).length = 0
      · simp only [hc, if_true]
      · simp only [hc, if_false]

theorem file_fgets_swept (E : Env) (fname : List Char) (buflen : Nat) (s : State) :
    Swept s (file_fgets E fname buflen s).2.2 [] := by
  unfold file_fgets
  cases h1 : E.fopen fname with
  | none => exact swept_emit _ (by rfl) (swept_refl s)
  | some content =>
    simp only []
    cases h2 : fgets (buflen - 1) content with
    | nil => exact swept_emit _ (by rfl) (swept_refl s)
    | cons c line =>
      simp only []
      split <;> exact swept_refl s

theorem is_card_ep11_and_online_swept (E : Env) (name : List Char) (s : State) :
    Swept s (is_card_ep11_and_online E name s).2 [] := by
  have h1 := file_fgets_swept E (SYSFS_DEVICES_AP ++ name ++ "/online".toList) 250 s
  have h2 := swept_trans h1 (file_fgets_swept E (SYSFS_DEVICES_AP ++ name ++ "/config".toList)
    250 _)
  have h3 := swept_trans h2 (file_fgets_swept E (SYSFS_DEVICES_AP ++ name ++ "/chkstop".toList)
    250 _)
  have h4 := swept_trans h3 (file_fgets_swept E
    (SYSFS_DEVICES_AP ++ name ++ "/ap_functions".toList) 250 _)
  unfold is_card_ep11_and_online
  simp only []
  repeat' split
  all_goals first | exact h1 | exact h2 | exact h3 | exact h4

theorem is_card_ep11_and_online_healthy (E : Env) (name : List Char) (s : State) :
    (is_card_ep11_and_online E name s).1 = CKR_OK ↔ healthy E name = true := by
  unfold is_card_ep11_and_online healthy reports_online reports_configured
    reports_no_checkstop has_ep11_function read_attribute
  simp only [file_fgets_fst, file_fgets_buf, apply_ite Prod.fst]
  generalize file_fgets_result E (SYSFS_DEVICES_AP ++ name ++ "/online".toList) 250 = r1
  generalize file_fgets_result E (SYSFS_DEVICES_AP ++ name ++ "/config".toList) 250 = r2
  generalize file_fgets_result E (SYSFS_DEVICES_AP ++ name ++ "/chkstop".toList) 250 = r3
  generalize file_fgets_result E (SYSFS_DEVICES_AP ++ name ++ "/ap_functions".toList) 250 = r4
  have hne : CKR_FUNCTION_FAILED ≠ CKR_OK := by decide
  by_cases h1 : r1.1 = CKR_OK <;> by_cases h1b : r1.2 = ['1'] <;>
    by_cases h2 : r2.1 = CKR_OK <;> by_cases h2b : r2.2 = ['1'] <;>
    by_cases h3 : r3.1 = CKR_OK <;> by_cases h3b : r3.2 = ['0'] <;>
    by_cases h4 : r4.1 = CKR_OK <;>
    by_cases h4b : Nat.land ((sscanf_hex 64 r4.2).getD 0) MASK_EP11 = 0 <;>
    simp [h1, h1b, h2, h2b, h3, h3b, h4, h4b, hne]

theorem scan_for_ep11_cards_loop_cons (E : Env) (h : adapter_handler_t)
    (data : Option (List Nat)) (name : List Char) (rest : List (List Char)) (s : State) :
    scan_for_ep11_cards_loop E h data (name :: rest) s =
      (if regexec REGEX_CARD_PATTERN name = true then
        if (is_card_ep11_and_online E name s).1 ≠ CKR_OK then
          scan_for_ep11_cards_loop E h data rest (is_card_ep11_and_online E name s).2
        else if (scan_for_card_domains E name h data
            (is_card_ep11_and_online E name s).2).1 ≠ CKR_OK then
          (scan_for_card_domains E name h data (is_card_ep11_and_online E name s).2).2
        else scan_for_ep11_cards_loop E h data rest
          (scan_for_card_domains E name h data (is_card_ep11_and_online E name s).2).2
       else scan_for_ep11_cards_loop E h data rest s) := by
  rw [scan_for_ep11_cards_loop]

/-- C11: `is_card_ep11_and_online` returns `CKR_OK` exactly when the four health
predicates hold: the online attribute reads "1"; the config attribute cannot be
read or reads "1"; the chkstop attribute cannot be read or reads "0"; the
function mask can be read and has the bit 0x04000000. For an adapter that fails
one of them `scan_for_ep11_cards` goes on with the next directory entry without
invoking any handler (the recorded invocations are unchanged); an adapter
for which all four hold is accepted: its domains are scanned. -/
theorem adapter_health (E : Env) (name : List Char) (s : State) :
    ((is_card_ep11_and_online E name s).1 = CKR_OK ↔
      (reports_online E name = true ∧ reports_configured E name = true ∧
        reports_no_checkstop E name = true ∧ has_ep11_function E name = true)) ∧
    (∀ (h : adapter_handler_t) (data : Option (List Nat)) (rest : List (List Char)),
      regexec REGEX_CARD_PATTERN name = true → healthy E name = false →
      scan_for_ep11_cards_loop E h data (name :: rest) s =
        scan_for_ep11_cards_loop E h data rest (is_card_ep11_and_online E name s).2 ∧
      (is_card_ep11_and_online E name s).2.calls = s.calls) ∧
    (∀ (h : adapter_handler_t) (data : Option (List Nat)) (rest : List (List Char)),
      regexec REGEX_CARD_PATTERN name = true → healthy E name = true →
      scan_for_ep11_cards_loop E h data (name :: rest) s =
        (if (scan_for_card_domains E name h data
            (is_card_ep11_and_online E name s).2).1 ≠ CKR_OK then
          (scan_for_card_domains E name h data (is_card_ep11_and_online E name s).2).2
         else scan_for_ep11_cards_loop E h data rest
          (scan_for_card_domains E name h data (is_card_ep11_and_online E name s).2).2)) := by
  have hiff := is_card_ep11_and_online_healthy E name s
  refine ⟨?_, ?_, ?_⟩
  · rw [hiff]
    simp [healthy, and_assoc]
  · intro h data rest hre hbad
    have hne : (is_card_ep11_and_online E name s).1 ≠ CKR_OK := by
      intro hok
      rw [hiff.mp hok] at hbad
      exact absurd hbad (by decide)
    refine ⟨?_, ?_⟩
    · rw [scan_for_ep11_cards_loop_cons, if_pos hre, if_pos hne]
    · have := (is_card_ep11_and_online_swept E name s).1
      simpa using this
  · intro h data rest hre hgood
    have hok : (is_card_ep11_and_online E name s).1 = CKR_OK := hiff.mpr hgood
    rw [scan_for_ep11_cards_loop_cons, if_pos hre, if_neg (not_not.mpr hok)]

/-- Witness of C11: the sample tree with `card00` reporting online "0": the adapter
fails predicate (a), and a discovery visits only the endpoint of `card01`. -/
theorem adapter_health_witness :
    (handle_all_ep11_cards
        (sample_env_with_file "/sys/devices/ap/card00/online".toList "0\n".toList) any_target
        (traced (failing_handler 99)) none State.init).2.calls = [(1, 2, CKR_OK)] ∧
    (scan_for_ep11_cards_loop
        (sample_env_with_file "/sys/devices/ap/card00/online".toList "0\n".toList)
        (traced (failing_handler 99)) none ["card00".toList, "card01".toList] State.init =
      scan_for_ep11_cards_loop
        (sample_env_with_file "/sys/devices/ap/card00/online".toList "0\n".toList)
        (traced (failing_handler 99)) none ["card01".toList]
        (is_card_ep11_and_online
          (sample_env_with_file "/sys/devices/ap/card00/online".toList "0\n".toList)
          "card00".toList State.init).2 ∧
      (is_card_ep11_and_online
          (sample_env_with_file "/sys/devices/ap/card00/online".toList "0\n".toList)
          "card00".toList State.init).2.calls = State.init.calls) :=
  ⟨by decide,
    (adapter_health (sample_env_with_file "/sys/devices/ap/card00/online".toList "0\n".toList)
      "card00".toList State.init).2.1 (traced (failing_handler 99)) none ["card01".toList]
      (by decide) (by decide)⟩

/-! ## Missing directories -/

/-- Counterexample to C12: with the sysfs root `/sys/devices/ap/` missing,
`scan_for_ep11_cards`, `handle_all_ep11_cards` in discovery mode and the status
action return `CKR_FUNCTION_FAILED`, not `CKR_OK` (no endpoint is visited). -/
theorem missing_root_is_reported :
    scan_for_ep11_cards (sample_env_without_dir "/sys/devices/ap/".toList)
        (some (traced (status_handler (sample_env_without_dir "/sys/devices/ap/".toList)
          globals_modular))) none State.init =
      (CKR_FUNCTION_FAILED,
        State.init.emit (Event.stderr (Msg.directory_not_available "/sys/devices/ap/".toList))) ∧
    (handle_all_ep11_cards (sample_env_without_dir "/sys/devices/ap/".toList) any_target
        (traced (status_handler (sample_env_without_dir "/sys/devices/ap/".toList)
          globals_modular)) none State.init).1 = CKR_FUNCTION_FAILED ∧
    (show_ep11_status (sample_env_without_dir "/sys/devices/ap/".toList) globals_modular
        State.init).1 = CKR_FUNCTION_FAILED := by
  decide

/-- C12, amended: when the sysfs root cannot be opened (the card pattern
compiles), `scan_for_ep11_cards` prints "Directory ... is not available" and
returns `CKR_FUNCTION_FAILED` without invoking the handler; so do
`handle_all_ep11_cards` for a target list of length 0 or less and, with a second
line, `show_ep11_status`. When the directory of one adapter cannot be opened
(the sub-card pattern compiles), `scan_for_card_domains` prints the same line
and returns `CKR_OK` without invoking the handler, and for an accepted adapter
the scan goes on with the remaining entries of the root. -/
theorem missing_directories (E : Env) (g : Globals) (h : adapter_handler_t)
    (data : Option (List Nat)) (s : State) :
    (E.regcomp REGEX_CARD_PATTERN = true → E.opendir SYSFS_DEVICES_AP = none →
      scan_for_ep11_cards E (some h) data s =
        (CKR_FUNCTION_FAILED,
          s.emit (Event.stderr (Msg.directory_not_available SYSFS_DEVICES_AP))) ∧
      (∀ t : ep11_target_t, t.length ≤ 0 →
        handle_all_ep11_cards E t h data s =
          (CKR_FUNCTION_FAILED,
            s.emit (Event.stderr (Msg.directory_not_available SYSFS_DEVICES_AP)))) ∧
      show_ep11_status E g s =
        (CKR_FUNCTION_FAILED,
          (s.emit (Event.stderr (Msg.directory_not_available SYSFS_DEVICES_AP))).emit
            (Event.stderr (Msg.handle_all_ep11_cards_rc CKR_FUNCTION_FAILED)))) ∧
    (∀ (name : List Char) (rest : List (List Char)),
      E.regcomp REGEX_SUB_CARD_PATTERN = true →
      E.opendir (SYSFS_DEVICES_AP ++ name ++ "/".toList) = none →
      scan_for_card_domains E name h data s =
        (CKR_OK, s.emit (Event.stderr
          (Msg.directory_not_available (SYSFS_DEVICES_AP ++ name ++ "/".toList)))) ∧
      (regexec REGEX_CARD_PATTERN name = true → healthy E name = true →
        scan_for_ep11_cards_loop E h data (name :: rest) s =
          scan_for_ep11_cards_loop E h data rest
            ((is_card_ep11_and_online E name s).2.emit (Event.stderr
              (Msg.directory_not_available (SYSFS_DEVICES_AP ++ name ++ "/".toList)))))) := by
  have hscan : ∀ (h2 : adapter_handler_t) (d2 : Option (List Nat)),
      E.regcomp REGEX_CARD_PATTERN = true → E.opendir SYSFS_DEVICES_AP = none →
      scan_for_ep11_cards E (some h2) d2 s =
        (CKR_FUNCTION_FAILED,
          s.emit (Event.stderr (Msg.directory_not_available SYSFS_DEVICES_AP))) := by
    intro h2 d2 hre hdir
    unfold scan_for_ep11_cards
    simp only [hre, hdir, Bool.true_eq_false, if_false]
  have hdom : ∀ (name : List Char) (s2 : State), E.regcomp REGEX_SUB_CARD_PATTERN = true →
      E.opendir (SYSFS_DEVICES_AP ++ name ++ "/".toList) = none →
      scan_for_card_domains E name h data s2 =
        (CKR_OK, s2.emit (Event.stderr
          (Msg.directory_not_available (SYSFS_DEVICES_AP ++ name ++ "/".toList)))) := by
    intro name s2 hre hdir
    unfold scan_for_card_domains
    simp only [hre, hdir, Bool.true_eq_false, if_false]
  refine ⟨?_, ?_⟩
  · intro hre hdir
    refine ⟨hscan h data hre hdir, ?_, ?_⟩
    · intro t ht
      unfold handle_all_ep11_cards
      rw [if_neg (by omega)]
      exact hscan h data hre hdir
    · unfold show_ep11_status handle_all_ep11_cards
      have h0 : ¬ any_target.length > 0 := by decide
      simp only [if_neg h0, hscan (status_handler E g) none hre hdir]
      rfl
  · intro name rest hre hdir
    refine ⟨hdom name s hre hdir, ?_⟩
    intro hcard hgood
    have hok : (is_card_ep11_and_online E name s).1 = CKR_OK :=
      (is_card_ep11_and_online_healthy E name s).mpr hgood
    rw [scan_for_ep11_cards_loop_cons, if_pos hcard, if_neg (not_not.mpr hok),
      hdom name _ hre hdir]
    rfl

/-- Witness of C12, amended: the sample tree without the directory of `card00`: the
scan prints one line for it and still visits the endpoint of `card01`. -/
theorem missing_directories_witness :
    (handle_all_ep11_cards (sample_env_without_dir "/sys/devices/ap/card00/".toList) any_target
        (traced (failing_handler 99)) none State.init).2.calls = [(1, 2, CKR_OK)] ∧
    (handle_all_ep11_cards (sample_env_without_dir "/sys/devices/ap/card00/".toList) any_target
        (traced (failing_handler 99)) none State.init).1 = CKR_OK ∧
    scan_for_card_domains (sample_env_without_dir "/sys/devices/ap/card00/".toList)
        "card00".toList (traced (failing_handler 99)) none State.init =
      (CKR_OK, State.init.emit (Event.stderr
        (Msg.directory_not_available (SYSFS_DEVICES_AP ++ "card00".toList ++ "/".toList)))) :=
  ⟨by decide, by decide,
    ((missing_directories (sample_env_without_dir "/sys/devices/ap/card00/".toList)
      globals_modular (traced (failing_handler 99)) none State.init).2
      "card00".toList [] (by decide) (by decide)).1⟩

/-! ## Corrupt session objects -/

/-- C13: when `C_GetAttributeValue` fails for a session object,
`process_session_obj` prints its code, calls `C_DestroyObject` on that object and
returns `CKR_OK`, whatever `C_DestroyObject` answers. Nothing else happens: the
outcome is the same for every handler (none is invoked), every filter setting
and every C library (the filter is not evaluated). `find_sessions` then goes on
with the next object of the batch. -/
theorem process_session_obj_corrupt (E : Env) (g : Globals) (session obj : Nat)
    (handler : handler_t) (s : State)
    (hrc : (E.C_GetAttributeValue s.trace session obj).1 ≠ CKR_OK) :
    process_session_obj E g session obj handler s =
      (CKR_OK,
        { s with trace := s.trace ++
            [Event.C_GetAttributeValue session obj (E.C_GetAttributeValue s.trace session obj).1,
             Event.stderr (Msg.C_GetAttributeValue_rc
               (E.C_GetAttributeValue s.trace session obj).1),
             Event.C_DestroyObject session obj
               (E.C_DestroyObject (s.trace ++
                 [Event.C_GetAttributeValue session obj
                    (E.C_GetAttributeValue s.trace session obj).1,
                  Event.stderr (Msg.C_GetAttributeValue_rc
                    (E.C_GetAttributeValue s.trace session obj).1)]) session obj)] }) ∧
    (∀ rest : List Nat,
      find_sessions_batch E g session handler (obj :: rest) s =
        find_sessions_batch E g session handler rest
          (process_session_obj E g session obj handler s).2) := by
  have hp : process_session_obj E g session obj handler s =
      (CKR_OK,
        { s with trace := s.trace ++
            [Event.C_GetAttributeValue session obj (E.C_GetAttributeValue s.trace session obj).1,
             Event.stderr (Msg.C_GetAttributeValue_rc
               (E.C_GetAttributeValue s.trace session obj).1),
             Event.C_DestroyObject session obj
               (E.C_DestroyObject (s.trace ++
                 [Event.C_GetAttributeValue session obj
                    (E.C_GetAttributeValue s.trace session obj).1,
                  Event.stderr (Msg.C_GetAttributeValue_rc
                    (E.C_GetAttributeValue s.trace session obj).1)]) session obj)] }) := by
    unfold process_session_obj
    simp only [if_pos hrc]
    simp [State.emit]
  refine ⟨hp, ?_⟩
  intro rest
  rw [find_sessions_batch]
  simp only [hp, ne_eq, not_true_eq_false, if_false]

/-- Witness of C13: the sample store failing to read the attributes of object 7 and
failing to destroy it too. -/
theorem process_session_obj_corrupt_witness :
    process_session_obj
        { sample_env CKR_OK with C_GetAttributeValue := fun _ _ _ => (0x30, sample_attrs),
                                 C_DestroyObject := fun _ _ _ => CKR_FUNCTION_FAILED }
        globals_modular 1 7
        (logout_session_obj
          { sample_env CKR_OK with C_GetAttributeValue := fun _ _ _ => (0x30, sample_attrs),
                                   C_DestroyObject := fun _ _ _ => CKR_FUNCTION_FAILED }
          globals_modular) State.init =
      (CKR_OK,
        { State.init with trace :=
            [Event.C_GetAttributeValue 1 7 0x30,
             Event.stderr (Msg.C_GetAttributeValue_rc 0x30),
             Event.C_DestroyObject 1 7 CKR_FUNCTION_FAILED] }) :=
  (process_session_obj_corrupt
    { sample_env CKR_OK with C_GetAttributeValue := fun _ _ _ => (0x30, sample_attrs),
                             C_DestroyObject := fun _ _ _ => CKR_FUNCTION_FAILED }
    globals_modular 1 7
    (logout_session_obj
      { sample_env CKR_OK with C_GetAttributeValue := fun _ _ _ => (0x30, sample_attrs),
                               C_DestroyObject := fun _ _ _ => CKR_FUNCTION_FAILED }
      globals_modular) State.init (by decide)).1

/-! ## A relation kept by the orchestrator

Whatever relation between states is reflexive, transitive, kept by printing on
stderr and kept by the handler is kept by `handle_all_ep11_cards`. -/

theorem file_fgets_rel (R : State → State → Prop) (hrefl : ∀ s, R s s)
    (hstderr : ∀ s m, R s (s.emit (Event.stderr m)))
    (E : Env) (fname : List Char) (buflen : Nat) (s : State) :
    R s (file_fgets E fname buflen s).2.2 := by
  unfold file_fgets
  cases h1 : E.fopen fname with
  | none => exact hstderr _ _
  | some content =>
    simp only []
    cases h2 : fgets (buflen - 1) content with
    | nil => exact hstderr _ _
    | cons c line =>
      simp only []
      split <;> exact hrefl s

theorem is_card_ep11_and_online_rel (R : State → State → Prop) (hrefl : ∀ s, R s s)
    (htrans : ∀ s1 s2 s3, R s1 s2 → R s2 s3 → R s1 s3)
    (hstderr : ∀ s m, R s (s.emit (Event.stderr m)))
    (E : Env) (name : List Char) (s : State) :
    R s (is_card_ep11_and_online E name s).2 := by
  have h1 := file_fgets_rel R hrefl hstderr E
    (SYSFS_DEVICES_AP ++ name ++ "/online".toList) 250 s
  have h2 := htrans _ _ _ h1 (file_fgets_rel R hrefl hstderr E
    (SYSFS_DEVICES_AP ++ name ++ "/config".toList) 250 _)
  have h3 := htrans _ _ _ h2 (file_fgets_rel R hrefl hstderr E
    (SYSFS_DEVICES_AP ++ name ++ "/chkstop".toList) 250 _)
  have h4 := htrans _ _ _ h3 (file_fgets_rel R hrefl hstderr E
    (SYSFS_DEVICES_AP ++ name ++ "/ap_functions".toList) 250 _)
  unfold is_card_ep11_and_online
  simp only []
  repeat' split
  all_goals first | exact h1 | exact h2 | exact h3 | exact h4

theorem scan_for_card_domains_loop_rel (R : State → State → Prop) (hrefl : ∀ s, R s s)
    (htrans : ∀ s1 s2 s3, R s1 s2 → R s2 s3 → R s1 s3)
    (h : adapter_handler_t) (data : Option (List Nat))
    (hh : ∀ a d s, R s (h a d data s).2) (entries : List (List Char)) :
    ∀ s : State, R s (scan_for_card_domains_loop h data entries s) := by
  induction entries with
  | nil => intro s; exact hrefl s
  | cons d_name rest ih =>
    intro s
    unfold scan_for_card_domains_loop
    split
    · split
      · exact ih s
      · split
        · exact ih s
        · split
          · exact ih s
          · split
            · exact ih s
            · simp only []
              split
              · exact hh _ _ s
              · exact htrans _ _ _ (hh _ _ s) (ih _)
    · exact ih s

theorem scan_for_card_domains_rel (R : State → State → Prop) (hrefl : ∀ s, R s s)
    (htrans : ∀ s1 s2 s3, R s1 s2 → R s2 s3 → R s1 s3)
    (hstderr : ∀ s m, R s (s.emit (Event.stderr m)))
    (E : Env) (name : List Char) (h : adapter_handler_t) (data : Option (List Nat))
    (hh : ∀ a d s, R s (h a d data s).2) (s : State) :
    R s (scan_for_card_domains E name h data s).2 := by
  unfold scan_for_card_domains
  split
  · exact hstderr _ _
  · split
    · exact hstderr _ _
    · exact scan_for_card_domains_loop_rel R hrefl htrans h data hh _ s

theorem scan_for_ep11_cards_loop_rel (R : State → State → Prop) (hrefl : ∀ s, R s s)
    (htrans : ∀ s1 s2 s3, R s1 s2 → R s2 s3 → R s1 s3)
    (hstderr : ∀ s m, R s (s.emit (Event.stderr m)))
    (E : Env) (h : adapter_handler_t) (data : Option (List Nat))
    (hh : ∀ a d s, R s (h a d data s).2) (entries : List (List Char)) :
    ∀ s : State, R s (scan_for_ep11_cards_loop E h data entries s) := by
  induction entries with
  | nil => intro s; exact hrefl s
  | cons d_name rest ih =>
    intro s
    have h1 := is_card_ep11_and_online_rel R hrefl htrans hstderr E d_name s
    have h2 := htrans _ _ _ h1 (scan_for_card_domains_rel R hrefl htrans hstderr E d_name h data
      hh (is_card_ep11_and_online E d_name s).2)
    rw [scan_for_ep11_cards_loop_cons]
    split
    · split
      · exact htrans _ _ _ h1 (ih _)
      · split
        · exact h2
        · exact htrans _ _ _ h2 (ih _)
    · exact ih s

theorem handle_all_ep11_cards_loop_rel (R : State → State → Prop) (hrefl : ∀ s, R s s)
    (htrans : ∀ s1 s2 s3, R s1 s2 → R s2 s3 → R s1 s3)
    (apqns : List Int) (h : adapter_handler_t) (data : Option (List Nat))
    (hh : ∀ a d s, R s (h a d data s).2) (n : Nat) :
    ∀ (i : Nat) (s : State), R s (handle_all_ep11_cards_loop apqns h data n i s).2 := by
  induction n with
  | zero => intro i s; exact hrefl s
  | succ n ih =>
    intro i s
    rw [handle_all_ep11_cards_loop]
    split
    · exact hh _ _ s
    · exact htrans _ _ _ (hh _ _ s) (ih _ _)

theorem handle_all_ep11_cards_rel (R : State → State → Prop) (hrefl : ∀ s, R s s)
    (htrans : ∀ s1 s2 s3, R s1 s2 → R s2 s3 → R s1 s3)
    (hstderr : ∀ s m, R s (s.emit (Event.stderr m)))
    (E : Env) (t : ep11_target_t) (h : adapter_handler_t) (data : Option (List Nat))
    (hh : ∀ a d s, R s (h a d data s).2) (s : State) :
    R s (handle_all_ep11_cards E t h data s).2 := by
  unfold handle_all_ep11_cards
  split
  · exact handle_all_ep11_cards_loop_rel R hrefl htrans t.apqns h data hh _ 0 s
  · unfold scan_for_ep11_cards
    simp only []
    split
    · exact hstderr _ _
    · split
      · exact hstderr _ _
      · exact scan_for_ep11_cards_loop_rel R hrefl htrans hstderr E h data hh _ s

/-! ## Counting the sessions -/

theorem counted_refl (P : Event → Bool) (s : State) : Counted P s s :=
  ⟨[], by simp, by simp [count_lines]⟩

theorem counted_trans (P : Event → Bool) (s1 s2 s3 : State)
    (h1 : Counted P s1 s2) (h2 : Counted P s2 s3) : Counted P s1 s3 := by
  obtain ⟨l1, ht1, hc1⟩ := h1
  obtain ⟨l2, ht2, hc2⟩ := h2
  refine ⟨l1 ++ l2, by rw [ht2, ht1, List.append_assoc], ?_⟩
  rw [hc2, hc1]
  simp [count_lines, Nat.add_assoc]

theorem counted_emit_other (P : Event → Bool) {s1 s2 : State} (e : Event)
    (he : P e = false) (h : Counted P s1 s2) : Counted P s1 (s2.emit e) :=
  counted_trans P _ _ _ h ⟨[e], rfl, by simp [count_lines, List.filter, he, State.emit]⟩

theorem counted_set_error (P : Event → Bool) {s1 s2 : State} (rc : CK_RV)
    (h : Counted P s1 s2) : Counted P s1 { s2 with error := rc } := h

theorem not_line_of_not_stdout (P : Event → Bool)
    (hP : ∀ e, P e = true → ∃ m, e = Event.stdout m) (e : Event)
    (hne : ∀ m, e ≠ Event.stdout m) : P e = false := by
  cases h : P e with
  | false => rfl
  | true =>
    obtain ⟨m, hm⟩ := hP e h
    exact absurd hm (hne m)

theorem logout_handler_counted (P : Event → Bool)
    (hP : ∀ e, P e = true → ∃ m, e = Event.stdout m)
    (E : Env) (g : Globals) (adapter domain : Nat) (data : Option (List Nat)) (s : State) :
    Counted P s (logout_handler E g adapter domain data s).2 := by
  have htail : ∀ (module : Option XCP_Module) (target : target_t) (s0 : State),
      Counted P s0 (logout_handler_tail E g adapter domain data module target s0).2 := by
    intro module target s0
    unfold logout_handler_tail
    simp only []
    have hlog := counted_emit_other P
      (Event.m_Logout data target (E.m_Logout s0.trace data target))
      (not_line_of_not_stdout P hP _ (by intro m hm; cases hm)) (counted_refl P s0)
    have herr := counted_set_error P (E.m_Logout s0.trace data target)
      (counted_emit_other P (Event.stderr (Msg.logout_failed adapter domain
        (E.m_Logout s0.trace data target)))
        (not_line_of_not_stdout P hP _ (by intro m hm; cases hm)) hlog)
    have hrm1 := counted_emit_other P (Event.m_rm_module module target)
      (not_line_of_not_stdout P hP _ (by intro m hm; cases hm)) herr
    have hrm2 := counted_emit_other P (Event.m_rm_module module target)
      (not_line_of_not_stdout P hP _ (by intro m hm; cases hm)) hlog
    repeat' split
    all_goals first | exact hrm1 | exact hrm2 | exact herr | exact hlog
  unfold logout_handler
  have hadd := counted_emit_other P
    (Event.m_add_module (make_module g adapter domain)
      (E.m_add_module s.trace (make_module g adapter domain)).1
      (E.m_add_module s.trace (make_module g adapter domain)).2)
    (not_line_of_not_stdout P hP _ (by intro m hm; cases hm)) (counted_refl P s)
  split
  · simp only []
    split
    · exact hadd
    · exact counted_trans P _ _ _ hadd (htail _ _ _)
  · exact htail _ _ _

theorem handle_all_logout_counted (P : Event → Bool)
    (hP : ∀ e, P e = true → ∃ m, e = Event.stdout m)
    (E : Env) (g : Globals) (t : ep11_target_t) (data : Option (List Nat)) (s : State) :
    Counted P s (handle_all_ep11_cards E t (logout_handler E g) data s).2 :=
  handle_all_ep11_cards_rel (Counted P) (counted_refl P) (counted_trans P)
    (fun s0 m => counted_emit_other P _
      (not_line_of_not_stdout P hP _ (by intro m2 hm; cases hm)) (counted_refl P s0))
    E t (logout_handler E g) data
    (fun a d s0 => logout_handler_counted P hP E g a d data s0) s

theorem is_logged_out_line_stdout :
    ∀ e, is_logged_out_line e = true → ∃ m, e = Event.stdout m := by
  intro e he
  cases e with
  | stdout m => exact ⟨m, rfl⟩
  | _ => simp [is_logged_out_line] at he

theorem is_session_line_stdout :
    ∀ e, is_session_line e = true → ∃ m, e = Event.stdout m := by
  intro e he
  cases e with
  | stdout m => exact ⟨m, rfl⟩
  | _ => simp [is_session_line] at he

theorem print_session_counted (P : Event → Bool)
    (hP : ∀ (id : List Nat), P (Event.stdout (Msg.session_id id)) = false)
    (hpid : ∀ pid, P (Event.stdout (Msg.pid pid)) = false)
    (hrun : ∀ pid, P (Event.stdout (Msg.pid_still_running pid)) = false)
    (hdate : ∀ d, P (Event.stdout (Msg.date d)) = false)
    (E : Env) (session_id : List Nat) (len : Nat) (pid : Int) (date : CK_DATE) (s : State) :
    Counted P s (print_session E session_id len pid date s) := by
  unfold print_session
  simp only []
  split
  · exact counted_emit_other P _ (hdate _) (counted_emit_other P _ (hrun _)
      (counted_emit_other P _ (hP _) (counted_refl P s)))
  · exact counted_emit_other P _ (hdate _) (counted_emit_other P _ (hpid _)
      (counted_emit_other P _ (hP _) (counted_refl P s)))

theorem logout_session_obj_destroy_counted (E : Env) (g : Globals) (session obj : Nat)
    (s : State) :
    Counted is_logged_out_line s (logout_session_obj_destroy E g session obj s).2 := by
  unfold logout_session_obj_destroy
  simp only []
  split
  · exact counted_emit_other _ _ (by rfl) (counted_emit_other _ _ (by rfl) (counted_refl _ s))
  · split
    · exact ⟨[Event.C_DestroyObject session obj (E.C_DestroyObject s.trace session obj),
        Event.stdout Msg.logged_out_successfully], by simp [State.emit], rfl⟩
    · exact ⟨[Event.C_DestroyObject session obj (E.C_DestroyObject s.trace session obj),
        Event.stdout Msg.deleted_due_to_force], by simp [State.emit], rfl⟩

theorem logout_session_obj_counted (E : Env) (g : Globals) (session obj : Nat)
    (pin_blob : List Nat) (size : Nat) (session_id : List Nat) (len : Nat)
    (targets : ep11_target_t) (pid : Int) (date : CK_DATE) (s : State) :
    Counted is_logged_out_line s
      (logout_session_obj E g session obj pin_blob size session_id len targets pid date s).2 := by
  have hprint := print_session_counted is_logged_out_line (fun _ => rfl) (fun _ => rfl)
    (fun _ => rfl) (fun _ => rfl) E session_id len pid date s
  cases hrun : is_process_running E pid with
  | true =>
    rw [logout_session_obj_running E g session obj pin_blob size session_id len targets pid
      date s hrun]
    exact ⟨_, rfl, rfl⟩
  | false =>
    rw [logout_session_obj_dead E g session obj pin_blob size session_id len targets pid date s
      hrun]
    have hstart : Counted is_logged_out_line s (sweep_start E session_id len pid date s) :=
      counted_set_error _ CKR_OK hprint
    have hsweep : Counted is_logged_out_line s
        (logout_sweep E g pin_blob session_id len targets pid date s).2 :=
      counted_trans _ _ _ _ hstart
        (handle_all_logout_counted is_logged_out_line is_logged_out_line_stdout E g targets
          (some pin_blob) _)
    simp only []
    split
    · exact counted_emit_other _ _ (by rfl) hsweep
    · split
      · split
        · exact counted_emit_other _ _ (by rfl) (counted_emit_other _ _ (by rfl) hsweep)
        · exact counted_trans _ _ _ _ (counted_emit_other _ _ (by rfl) hsweep)
            (logout_session_obj_destroy_counted E g session obj _)
      · exact counted_trans _ _ _ _ hsweep
          (logout_session_obj_destroy_counted E g session obj _)

theorem show_session_obj_counted (E : Env) (session obj : Nat)
    (pin_blob : List Nat) (size : Nat) (session_id : List Nat) (len : Nat)
    (targets : ep11_target_t) (pid : Int) (date : CK_DATE) (s : State) :
    Counted is_session_line s
      (show_session_obj E session obj pin_blob size session_id len targets pid date s).2 := by
  unfold show_session_obj print_session
  simp only []
  split
  · exact ⟨[Event.stdout (Msg.session_id (session_id.take len)),
      Event.stdout (Msg.pid_still_running pid), Event.stdout (Msg.date date)],
      by simp [State.emit], rfl⟩
  · exact ⟨[Event.stdout (Msg.session_id (session_id.take len)),
      Event.stdout (Msg.pid pid), Event.stdout (Msg.date date)],
      by simp [State.emit], rfl⟩

theorem process_session_obj_counted (P : Event → Bool)
    (hP : ∀ e, P e = true → ∃ m, e = Event.stdout m)
    (E : Env) (g : Globals) (session obj : Nat) (handler : handler_t)
    (hh : ∀ a b c d e f t p dt s, Counted P s (handler a b c d e f t p dt s).2) (s : State) :
    Counted P s (process_session_obj E g session obj handler s).2 := by
  have hget := counted_emit_other P
    (Event.C_GetAttributeValue session obj (E.C_GetAttributeValue s.trace session obj).1)
    (not_line_of_not_stdout P hP _ (by intro m hm; cases hm)) (counted_refl P s)
  unfold process_session_obj
  simp only []
  split
  · exact counted_emit_other P _ (not_line_of_not_stdout P hP _ (by intro m hm; cases hm))
      (counted_emit_other P _ (not_line_of_not_stdout P hP _ (by intro m hm; cases hm)) hget)
  · split
    · exact hget
    · split
      · split
        · exact counted_trans P _ _ _ hget (hh _ _ _ _ _ _ _ _ _ _)
        · exact counted_trans P _ _ _ hget (hh _ _ _ _ _ _ _ _ _ _)
      · exact hget

theorem find_sessions_batch_counted (P : Event → Bool)
    (hP : ∀ e, P e = true → ∃ m, e = Event.stdout m)
    (E : Env) (g : Globals) (session : Nat) (handler : handler_t)
    (hh : ∀ a b c d e f t p dt s, Counted P s (handler a b c d e f t p dt s).2)
    (objs : List Nat) :
    ∀ s : State, Counted P s (find_sessions_batch E g session handler objs s).2 := by
  induction objs with
  | nil => intro s; exact counted_refl P s
  | cons obj rest ih =>
    intro s
    rw [find_sessions_batch]
    split
    · exact process_session_obj_counted P hP E g session obj handler hh s
    · exact counted_trans P _ _ _
        (process_session_obj_counted P hP E g session obj handler hh s) (ih _)

theorem find_sessions_loop_counted (P : Event → Bool)
    (hP : ∀ e, P e = true → ∃ m, e = Event.stdout m)
    (E : Env) (g : Globals) (session : Nat) (handler : handler_t)
    (hh : ∀ a b c d e f t p dt s, Counted P s (handler a b c d e f t p dt s).2)
    (answers : List (CK_RV × List Nat)) :
    ∀ s : State, Counted P s (find_sessions_loop E g session handler answers s).2 := by
  induction answers with
  | nil =>
    intro s
    exact counted_emit_other P _ (not_line_of_not_stdout P hP _ (by intro m hm; cases hm))
      (counted_refl P s)
  | cons a rest ih =>
    intro s
    obtain ⟨rc, objs⟩ := a
    have h1 := counted_emit_other P (Event.C_FindObjects session rc objs)
      (not_line_of_not_stdout P hP _ (by intro m hm; cases hm)) (counted_refl P s)
    have h2 := counted_trans P _ _ _ h1
      (find_sessions_batch_counted P hP E g session handler hh objs _)
    rw [find_sessions_loop]
    simp only []
    split
    · exact counted_emit_other P _ (not_line_of_not_stdout P hP _ (by intro m hm; cases hm)) h1
    · split
      · exact h2
      · split
        · exact counted_trans P _ _ _ h2 (ih _)
        · exact h2

theorem find_sessions_counted (P : Event → Bool)
    (hP : ∀ e, P e = true → ∃ m, e = Event.stdout m)
    (E : Env) (g : Globals) (session : Nat) (handler : handler_t)
    (hh : ∀ a b c d e f t p dt s, Counted P s (handler a b c d e f t p dt s).2) (s : State) :
    Counted P s (find_sessions E g session handler s).2 := by
  have h1 := counted_emit_other P
    (Event.C_FindObjectsInit session (E.C_FindObjectsInit s.trace session))
    (not_line_of_not_stdout P hP _ (by intro m hm; cases hm)) (counted_refl P s)
  unfold find_sessions
  simp only []
  refine counted_emit_other P _ (not_line_of_not_stdout P hP _ (by intro m hm; cases hm)) ?_
  split
  · exact counted_emit_other P _ (not_line_of_not_stdout P hP _ (by intro m hm; cases hm)) h1
  · exact counted_trans P _ _ _ h1 (find_sessions_loop_counted P hP E g session handler hh _ _)

/-- Counterexample to C14: the store holds one session, whose owner 4200 is still
running. The logout action is invoked on it (its report is printed), the
enumeration ends with `CKR_OK`, and the reported count is 0. -/
theorem running_session_is_not_counted :
    logout_sessions sample_env_live_owner globals_modular 1 State.init =
      (CKR_OK,
        { trace := [Event.stdout Msg.list_of_sessions,
                    Event.C_FindObjectsInit 1 CKR_OK,
                    Event.C_FindObjects 1 CKR_OK [7],
                    Event.C_GetAttributeValue 1 7 CKR_OK,
                    Event.stdout (Msg.session_id sample_id),
                    Event.stdout (Msg.pid_still_running 4200),
                    Event.stdout (Msg.date date_2024_01_01),
                    Event.stdout (Msg.not_logged_out_still_running 4200),
                    Event.C_FindObjects 1 CKR_OK [],
                    Event.C_FindObjectsFinal 1,
                    Event.stdout (Msg.sessions_logged_out 0)],
          count := 0, error := CKR_OK, calls := [] }) := by
  decide

/-- C14, amended: when the enumeration ends with `CKR_OK`, the show action
reports the number of session reports it printed, one per invocation of
`show_session_obj`; the logout action reports the number of sessions whose object
was destroyed, that is the number of lines "Session logged out successfully"
and "Session deleted due to -force option" (sessions whose owner is running,
or that are kept after a logout failure, are not counted). -/
theorem reported_counts (E : Env) (g : Globals) (session : Nat) (s : State) :
    ((show_sessions E g session s).1 = CKR_OK →
      ∃ l, (show_sessions E g session s).2.trace =
        s.trace ++ [Event.stdout Msg.list_of_sessions] ++ l ++
          [Event.stdout (Msg.sessions_displayed (count_lines is_session_line l))]) ∧
    ((logout_sessions E g session s).1 = CKR_OK →
      ∃ l, (logout_sessions E g session s).2.trace =
        s.trace ++ [Event.stdout Msg.list_of_sessions] ++ l ++
          [Event.stdout (Msg.sessions_logged_out (count_lines is_logged_out_line l))]) := by
  constructor
  · intro hok
    obtain ⟨l, ht, hc⟩ := find_sessions_counted is_session_line is_session_line_stdout E g
      session (show_session_obj E)
      (fun a b c d e f t p dt s0 => show_session_obj_counted E a b c d e f t p dt s0)
      { s.emit (Event.stdout Msg.list_of_sessions) with count := 0 }
    refine ⟨l, ?_⟩
    unfold show_sessions at hok ⊢
    simp only [State.emit] at ht hc hok ⊢
    split
    · rename_i hbad
      rw [if_pos hbad] at hok
      exact absurd hok hbad
    · simp only [hc, ht]
      simp
  · intro hok
    obtain ⟨l, ht, hc⟩ := find_sessions_counted is_logged_out_line is_logged_out_line_stdout E
      g session (logout_session_obj E g)
      (fun a b c d e f t p dt s0 => logout_session_obj_counted E g a b c d e f t p dt s0)
      { s.emit (Event.stdout Msg.list_of_sessions) with count := 0 }
    refine ⟨l, ?_⟩
    unfold logout_sessions at hok ⊢
    simp only [State.emit] at ht hc hok ⊢
    split
    · rename_i hbad
      rw [if_pos hbad] at hok
      exact absurd hok hbad
    · simp only [hc, ht]
      simp

/-- Witness of C14, amended: the sample store (one session of a dead owner whose logout
succeeds): one session is reported as logged out. -/
theorem reported_counts_witness :
    (logout_sessions (sample_env CKR_OK) globals_modular 1 State.init).2.count = 1 ∧
    (show_sessions sample_env_live_owner globals_modular 1 State.init).2.count = 1 ∧
    ∃ l, (logout_sessions (sample_env CKR_OK) globals_modular 1 State.init).2.trace =
      State.init.trace ++ [Event.stdout Msg.list_of_sessions] ++ l ++
        [Event.stdout (Msg.sessions_logged_out (count_lines is_logged_out_line l))] :=
  ⟨by decide, by decide,
    (reported_counts (sample_env CKR_OK) globals_modular 1 State.init).2 (by decide)⟩

/-! ## A failing module registration -/

theorem logout_handler_registration_fails (E : Env) (g : Globals) (adapter domain : Nat)
    (data : Option (List Nat)) (s : State) (hmod : g.dll_m_add_module = true)
    (hfail : (E.m_add_module s.trace (make_module g adapter domain)).1 ≠ 0) :
    logout_handler E g adapter domain data s =
      (CKR_FUNCTION_FAILED,
        s.emit (Event.m_add_module (make_module g adapter domain)
          (E.m_add_module s.trace (make_module g adapter domain)).1
          (E.m_add_module s.trace (make_module g adapter domain)).2)) := by
  unfold logout_handler
  simp only [hmod, if_true]
  exact if_pos hfail

/-- Counterexample to C15: the allow-list (1, 1), (1, 2), (2, 1) with a library
whose `m_add_module` fails for the endpoint (1, 1) only. The sweep ends with
`CKR_FUNCTION_FAILED` after the first endpoint: the handler is invoked once, no
`m_Logout` call is made on (1, 2) and (2, 1), and the failure aggregate `error`
is still `CKR_OK`. -/
theorem registration_failure_stops_sweep :
    (handle_all_ep11_cards (sample_env_failing_registration 1 1) sample_allow_list
        (traced (logout_handler (sample_env_failing_registration 1 1) globals_modular))
        (some [1, 2, 3])
        (sweep_start (sample_env_failing_registration 1 1) sample_id 16 4100 date_2021_05_01
          State.init)).2.calls = [(1, 1, CKR_FUNCTION_FAILED)] ∧
    (logout_sweep (sample_env_failing_registration 1 1) globals_modular [1, 2, 3] sample_id 16
        sample_allow_list 4100 date_2021_05_01 State.init).1 = CKR_FUNCTION_FAILED ∧
    (logout_sweep (sample_env_failing_registration 1 1) globals_modular [1, 2, 3] sample_id 16
        sample_allow_list 4100 date_2021_05_01 State.init).2.error = CKR_OK ∧
    logout_results (logout_sweep (sample_env_failing_registration 1 1) globals_modular [1, 2, 3]
        sample_id 16 sample_allow_list 4100 date_2021_05_01 State.init).2.trace = [] ∧
    (logout_sweep (sample_env_failing_registration 1 1) globals_modular [1, 2, 3] sample_id 16
        sample_allow_list 4100 date_2021_05_01 State.init).2.trace =
      [Event.stdout (Msg.session_id sample_id),
       Event.stdout (Msg.pid 4100),
       Event.stdout (Msg.date date_2021_05_01),
       Event.m_add_module (make_module globals_modular 1 1) 5 0] := by
  decide

/-- C15, amended: under the Modular generation a failing module registration is
fatal to the sweep over an allow-list and is not recorded in the failure
aggregate. When `m_add_module` fails for an endpoint, `logout_handler` returns
`CKR_FUNCTION_FAILED` having made no `m_Logout` call and leaving `error` as it
was; the loop of `handle_all_ep11_cards` over the allow-list then returns this
code at once, whatever the number of endpoints left, so that no remaining
endpoint is visited; and `logout_session_obj` returns the code of the aborted
sweep without destroying the session object. -/
theorem registration_failure_aborts (E : Env) (g : Globals) (hmod : g.dll_m_add_module = true) :
    (∀ (adapter domain : Nat) (data : Option (List Nat)) (s : State),
      (E.m_add_module s.trace (make_module g adapter domain)).1 ≠ 0 →
      (logout_handler E g adapter domain data s).1 = CKR_FUNCTION_FAILED ∧
      (logout_handler E g adapter domain data s).2.error = s.error ∧
      logout_results (logout_handler E g adapter domain data s).2.trace =
        logout_results s.trace) ∧
    (∀ (apqns : List Int) (data : Option (List Nat)) (n i : Nat) (s : State),
      (E.m_add_module s.trace
        (make_module g (short_to_uint_32 (apqns.getD (2 * i) 0))
          (short_to_uint_32 (apqns.getD (2 * i + 1) 0)))).1 ≠ 0 →
      handle_all_ep11_cards_loop apqns (logout_handler E g) data (n + 1) i s =
        logout_handler E g (short_to_uint_32 (apqns.getD (2 * i) 0))
          (short_to_uint_32 (apqns.getD (2 * i + 1) 0)) data s) ∧
    (∀ (session obj : Nat) (pin_blob : List Nat) (size : Nat) (session_id : List Nat)
        (len : Nat) (targets : ep11_target_t) (pid : Int) (date : CK_DATE) (s : State),
      is_process_running E pid = false →
      (logout_sweep E g pin_blob session_id len targets pid date s).1 ≠ CKR_OK →
      logout_session_obj E g session obj pin_blob size session_id len targets pid date s =
        ((logout_sweep E g pin_blob session_id len targets pid date s).1,
          (logout_sweep E g pin_blob session_id len targets pid date s).2.emit
            (Event.stderr (Msg.handle_all_ep11_cards_rc
              (logout_sweep E g pin_blob session_id len targets pid date s).1)))) := by
  refine ⟨?_, ?_, ?_⟩
  · intro adapter domain data s hfail
    rw [logout_handler_registration_fails E g adapter domain data s hmod hfail]
    refine ⟨rfl, rfl, ?_⟩
    simp [State.emit, logout_results]
  · intro apqns data n i s hfail
    rw [handle_all_ep11_cards_loop]
    refine if_pos ?_
    rw [logout_handler_registration_fails E g _ _ data s hmod hfail]
    exact show CKR_FUNCTION_FAILED ≠ CKR_OK by decide
  · intro session obj pin_blob size session_id len targets pid date s hdead hbad
    rw [logout_session_obj_dead E g session obj pin_blob size session_id len targets pid date s
      hdead]
    exact if_pos hbad

/-- Witness of C15, amended: the library of the sample whose registration fails
for the endpoint (1, 1), at the start of the sweep over the allow-list (1, 1),
(1, 2), (2, 1). -/
theorem registration_failure_aborts_witness :
    (logout_handler (sample_env_failing_registration 1 1) globals_modular 1 1 (some [1, 2, 3])
        State.init).1 = CKR_FUNCTION_FAILED ∧
    (logout_handler (sample_env_failing_registration 1 1) globals_modular 1 1 (some [1, 2, 3])
        State.init).2.error = State.init.error ∧
    logout_results (logout_handler (sample_env_failing_registration 1 1) globals_modular 1 1
        (some [1, 2, 3]) State.init).2.trace = logout_results State.init.trace :=
  (registration_failure_aborts (sample_env_failing_registration 1 1) globals_modular
    (by decide)).1 1 1 (some [1, 2, 3]) State.init (by decide)

/-! ## The report of a destroyed session -/

/-- C16, as the code behaves: for a session with a dead owner whose sweep
returned `CKR_OK` with no failure recorded and whose object is destroyed, the
report is chosen by the force flag alone: "Session logged out successfully"
without `-force`, "Session deleted due to -force option" with it. -/
theorem forced_report_without_failure (E : Env) (g : Globals) (session obj : Nat)
    (pin_blob : List Nat) (size : Nat) (session_id : List Nat) (len : Nat)
    (targets : ep11_target_t) (pid : Int) (date : CK_DATE) (s : State)
    (hdead : is_process_running E pid = false)
    (hsweep : (logout_sweep E g pin_blob session_id len targets pid date s).1 = CKR_OK)
    (herr : (logout_sweep E g pin_blob session_id len targets pid date s).2.error = CKR_OK)
    (hdestroy : E.C_DestroyObject
      (logout_sweep E g pin_blob session_id len targets pid date s).2.trace session obj =
        CKR_OK) :
    (logout_session_obj E g session obj pin_blob size session_id len targets pid date s).2.trace
      = (logout_sweep E g pin_blob session_id len targets pid date s).2.trace ++
          [Event.C_DestroyObject session obj CKR_OK,
           Event.stdout (if g.force = false then Msg.logged_out_successfully
                         else Msg.deleted_due_to_force)] := by
  rw [logout_session_obj_dead E g session obj pin_blob size session_id len targets pid date s
    hdead]
  simp only [hsweep, herr, ne_eq, not_true_eq_false, if_false]
  rw [logout_session_obj_destroy_trace, hdestroy]
  by_cases hf : g.force = false
  · simp [hf]
  · simp [hf]

/-- Evaluation for C16: the sample session (dead owner 4100, one endpoint whose
logout succeeds) with the option `-force`: no failure is recorded, the object
is destroyed, and the report is "Session deleted due to -force option". -/
theorem forced_report_without_failure_witness :
    (logout_sweep (sample_env CKR_OK) globals_force [1, 2, 3] sample_id 16
        sample_attrs.ep11_targets 4100 date_2021_05_01 State.init).2.error = CKR_OK ∧
    (logout_session_obj (sample_env CKR_OK) globals_force 1 7 [1, 2, 3] 3 sample_id 16
        sample_attrs.ep11_targets 4100 date_2021_05_01 State.init).2.trace =
      (logout_sweep (sample_env CKR_OK) globals_force [1, 2, 3] sample_id 16
        sample_attrs.ep11_targets 4100 date_2021_05_01 State.init).2.trace ++
          [Event.C_DestroyObject 1 7 CKR_OK,
           Event.stdout (if globals_force.force = false then Msg.logged_out_successfully
                         else Msg.deleted_due_to_force)] ∧
    (if globals_force.force = false then Msg.logged_out_successfully
      else Msg.deleted_due_to_force) = Msg.deleted_due_to_force :=
  ⟨by decide,
    forced_report_without_failure (sample_env CKR_OK) globals_force 1 7 [1, 2, 3] 3 sample_id 16
      sample_attrs.ep11_targets 4100 date_2021_05_01 State.init (by decide) (by decide)
      (by decide) (by decide),
    by decide⟩

/-! ## The optional attributes of an adapter -/

theorem read_attribute_none (E : Env) (name attr : List Char) :
    read_attribute E name attr = none ↔
      match E.fopen (SYSFS_DEVICES_AP ++ name ++ attr) with
      | none => True
      | some content => cstr ((fgets 249 content).takeWhile (fun x => x != '\n')) = [] := by
  unfold read_attribute file_fgets_result file_fgets
  cases h1 : E.fopen (SYSFS_DEVICES_AP ++ name ++ attr) with
  | none => simp [show CKR_FUNCTION_FAILED ≠ CKR_OK by decide]
  | some content =>
    simp only []
    cases h2 : fgets (250 - 1) content with
    | nil =>
      have h2b : fgets 249 content = [] := h2
      simp [h2b, cstr, show CKR_FUNCTION_FAILED ≠ CKR_OK by decide]
    | cons c line =>
      have h2b : fgets 249 content = c :: line := h2
      simp only [h2b]
      by_cases hc : (cstr (List.takeWhile (fun x => x != '\n') (c :: line))).length = 0
      · simp only [hc, if_true]
        simp [show CKR_FUNCTION_FAILED ≠ CKR_OK by decide, List.length_eq_zero.mp hc]
      · simp only [hc, if_false]
        have hne : cstr (List.takeWhile (fun x => x != '\n') (c :: line)) ≠ [] :=
          fun h => hc (by rw [h]; rfl)
        simp [hne]

theorem is_card_ep11_and_online_optional (E : Env) (name : List Char) (s : State)
    (honline : reports_online E name = true) (hmask : has_ep11_function E name = true) :
    (is_card_ep11_and_online E name s).1 =
      if reports_configured E name = true ∧ reports_no_checkstop E name = true then CKR_OK
      else CKR_FUNCTION_FAILED := by
  revert honline hmask
  unfold is_card_ep11_and_online reports_online reports_configured
    reports_no_checkstop has_ep11_function read_attribute
  simp only [file_fgets_fst, file_fgets_buf, apply_ite Prod.fst]
  generalize file_fgets_result E (SYSFS_DEVICES_AP ++ name ++ "/online".toList) 250 = r1
  generalize file_fgets_result E (SYSFS_DEVICES_AP ++ name ++ "/config".toList) 250 = r2
  generalize file_fgets_result E (SYSFS_DEVICES_AP ++ name ++ "/chkstop".toList) 250 = r3
  generalize file_fgets_result E (SYSFS_DEVICES_AP ++ name ++ "/ap_functions".toList) 250 = r4
  have hne : CKR_FUNCTION_FAILED ≠ CKR_OK := by decide
  by_cases h1 : r1.1 = CKR_OK <;> by_cases h1b : r1.2 = ['1'] <;>
    by_cases h2 : r2.1 = CKR_OK <;> by_cases h2b : r2.2 = ['1'] <;>
    by_cases h3 : r3.1 = CKR_OK <;> by_cases h3b : r3.2 = ['0'] <;>
    by_cases h4 : r4.1 = CKR_OK <;>
    by_cases h4b : Nat.land ((sscanf_hex 64 r4.2).getD 0) MASK_EP11 = 0 <;>
    simp [h1, h1b, h2, h2b, h3, h3b, h4, h4b, hne]

/-- Counterexample to C17: `card00` of the sample tree is online with the EP11
bit set and is accepted when it has no `config` file; with a `config` file
holding "yes", or a `chkstop` file holding "x", `is_card_ep11_and_online`
returns `CKR_FUNCTION_FAILED` and discovery visits the endpoint of `card01`
only. -/
theorem malformed_attribute_rejects :
    (is_card_ep11_and_online (sample_env CKR_OK) "card00".toList State.init).1 = CKR_OK ∧
    (is_card_ep11_and_online
        (sample_env_with_file "/sys/devices/ap/card00/config".toList "yes\n".toList)
        "card00".toList State.init).1 = CKR_FUNCTION_FAILED ∧
    (is_card_ep11_and_online
        (sample_env_with_file "/sys/devices/ap/card00/chkstop".toList "x\n".toList)
        "card00".toList State.init).1 = CKR_FUNCTION_FAILED ∧
    (handle_all_ep11_cards
        (sample_env_with_file "/sys/devices/ap/card00/config".toList "yes\n".toList) any_target
        (traced (failing_handler 99)) none State.init).2.calls = [(1, 2, CKR_OK)] := by
  decide

/-- C17, amended: an optional attribute (config, chkstop) is treated as absent
only when it cannot be read: its file cannot be opened, nothing can be read
from it, or its first line is empty. For an adapter whose online attribute
reads "1" and whose function mask has the EP11 bit, `is_card_ep11_and_online`
returns `CKR_OK` when the config attribute cannot be read or reads "1" and the
chkstop attribute cannot be read or reads "0", and `CKR_FUNCTION_FAILED`
otherwise: a first line other than "1" (for chkstop, other than "0") rejects
the adapter, well-formed or not. -/
theorem optional_attribute (E : Env) (name : List Char) (s : State)
    (honline : reports_online E name = true) (hmask : has_ep11_function E name = true) :
    ((is_card_ep11_and_online E name s).1 = CKR_OK ↔
      (read_attribute E name "/config".toList = none ∨
        read_attribute E name "/config".toList = some ['1']) ∧
      (read_attribute E name "/chkstop".toList = none ∨
        read_attribute E name "/chkstop".toList = some ['0'])) ∧
    ((is_card_ep11_and_online E name s).1 ≠ CKR_OK →
      (is_card_ep11_and_online E name s).1 = CKR_FUNCTION_FAILED) ∧
    (∀ v, read_attribute E name "/config".toList = some v → v ≠ ['1'] →
      (is_card_ep11_and_online E name s).1 = CKR_FUNCTION_FAILED) ∧
    (∀ v, read_attribute E name "/chkstop".toList = some v → v ≠ ['0'] →
      (is_card_ep11_and_online E name s).1 = CKR_FUNCTION_FAILED) ∧
    (∀ attr, read_attribute E name attr = none ↔
      match E.fopen (SYSFS_DEVICES_AP ++ name ++ attr) with
      | none => True
      | some content => cstr ((fgets 249 content).takeWhile (fun x => x != '\n')) = []) := by
  have hval := is_card_ep11_and_online_optional E name s honline hmask
  have hne : CKR_FUNCTION_FAILED ≠ CKR_OK := by decide
  refine ⟨?_, ?_, ?_, ?_, fun attr => read_attribute_none E name attr⟩
  · rw [hval]
    simp only [reports_configured, reports_no_checkstop, decide_eq_true_eq]
    constructor
    · intro h
      by_contra hn
      rw [if_neg hn] at h
      exact hne h
    · intro h
      exact if_pos h
  · intro hbad
    rw [hval] at hbad ⊢
    split
    · rename_i h
      rw [if_pos h] at hbad
      exact absurd rfl hbad
    · rfl
  · intro v hv hv1
    rw [hval]
    refine if_neg ?_
    intro h
    have := h.1
    simp only [reports_configured, decide_eq_true_eq] at this
    rw [hv] at this
    rcases this with h0 | h0
    · cases h0
    · exact hv1 (Option.some.inj h0)
  · intro v hv hv1
    rw [hval]
    refine if_neg ?_
    intro h
    have := h.2
    simp only [reports_no_checkstop, decide_eq_true_eq] at this
    rw [hv] at this
    rcases this with h0 | h0
    · cases h0
    · exact hv1 (Option.some.inj h0)

/-- Witness of C17, amended: `card00` of the sample tree with a `config` file holding
"yes": the adapter is online with the EP11 bit and is rejected. -/
theorem optional_attribute_witness :
    reports_online (sample_env_with_file "/sys/devices/ap/card00/config".toList "yes\n".toList)
      "card00".toList = true ∧
    read_attribute (sample_env_with_file "/sys/devices/ap/card00/config".toList "yes\n".toList)
      "card00".toList "/config".toList = some "yes".toList ∧
    (is_card_ep11_and_online
        (sample_env_with_file "/sys/devices/ap/card00/config".toList "yes\n".toList)
        "card00".toList State.init).1 = CKR_FUNCTION_FAILED :=
  ⟨by decide, by decide,
    (optional_attribute
      (sample_env_with_file "/sys/devices/ap/card00/config".toList "yes\n".toList)
      "card00".toList State.init (by decide) (by decide)).2.2.1 "yes".toList (by decide)
      (by decide)⟩

/-! ## The names of the domain entries -/

theorem strtok_token (s t : List Char) (delim : Char) (hne : s ≠ [])
    (hs : ∀ c ∈ s, c ≠ delim) :
    strtok (s ++ delim :: t) delim = some (s, t) := by
  cases s with
  | nil => exact absurd rfl hne
  | cons c r =>
    have hc : c ≠ delim := hs c (List.mem_cons_self _ _)
    have htake : ∀ l : List Char, (∀ x ∈ l, x ≠ delim) →
        List.takeWhile (fun x => x != delim) (l ++ delim :: t) = l ∧
        List.dropWhile (fun x => x != delim) (l ++ delim :: t) = delim :: t := by
      intro l
      induction l with
      | nil =>
        intro _
        rw [List.nil_append, List.takeWhile_cons, List.dropWhile_cons]
        simp
      | cons x l ih =>
        intro hl
        have hx : (x != delim) = true := bne_iff_ne.mpr (hl x (List.mem_cons_self _ _))
        have := ih (fun y hy => hl y (List.mem_cons_of_mem _ hy))
        rw [List.cons_append, List.takeWhile_cons, List.dropWhile_cons]
        simp only [hx, if_true, this.1, this.2, and_self]
    have h2 := htake (c :: r) hs
    unfold strtok
    have hc2 : (c == delim) = false := beq_eq_false_iff_ne.mpr hc
    have hdrop : List.dropWhile (fun x => x == delim) ((c :: r) ++ delim :: t) =
        (c :: r) ++ delim :: t := by
      rw [List.cons_append, List.dropWhile_cons]
      simp only [hc2, Bool.false_eq_true, if_false]
    rw [hdrop]
    show some (List.takeWhile (fun x => x != delim) ((c :: r) ++ delim :: t),
      (List.dropWhile (fun x => x != delim) ((c :: r) ++ delim :: t)).drop 1) = some (c :: r, t)
    rw [h2.1, h2.2]
    rfl

theorem strtok_whole (s : List Char) (delim : Char) (hne : s ≠ [])
    (hs : ∀ c ∈ s, c ≠ delim) :
    ∃ save, strtok s delim = some (s, save) := by
  cases s with
  | nil => exact absurd rfl hne
  | cons c r =>
    have hc : c ≠ delim := hs c (List.mem_cons_self _ _)
    have htake : ∀ l : List Char, (∀ x ∈ l, x ≠ delim) →
        List.takeWhile (fun x => x != delim) l = l := by
      intro l
      induction l with
      | nil => intro _; rfl
      | cons x l ih =>
        intro hl
        have hx : (x != delim) = true := bne_iff_ne.mpr (hl x (List.mem_cons_self _ _))
        have := ih (fun y hy => hl y (List.mem_cons_of_mem _ hy))
        rw [List.takeWhile_cons]
        simp only [hx, if_true, this]
    unfold strtok
    have hc2 : (c == delim) = false := beq_eq_false_iff_ne.mpr hc
    have hdrop : List.dropWhile (fun x => x == delim) (c :: r) = c :: r := by
      rw [List.dropWhile_cons]
      simp only [hc2, Bool.false_eq_true, if_false]
    rw [hdrop]
    refine ⟨(List.dropWhile (fun x => x != delim) (c :: r)).drop 1, ?_⟩
    show some (List.takeWhile (fun x => x != delim) (c :: r),
      (List.dropWhile (fun x => x != delim) (c :: r)).drop 1) = some (c :: r, _)
    rw [htake (c :: r) hs]

theorem isxdigit_cases (c : Char) (h : isxdigit c = true) :
    isspace c = false ∧ c ≠ '-' ∧ c ≠ '+' ∧ c ≠ 'x' ∧ c ≠ 'X' ∧ c ≠ '.' ∧ c ≠ ',' := by
  unfold isxdigit at h
  simp only [decide_eq_true_eq] at h
  refine ⟨?_, ?_, ?_, ?_, ?_, ?_, ?_⟩
  · unfold isspace
    simp only [decide_eq_false_iff_not]
    omega
  all_goals
    intro hc
    subst hc
    revert h
    decide

theorem takeWhile_isxdigit (s : List Char) (hx : ∀ c ∈ s, isxdigit c = true) :
    s.takeWhile isxdigit = s := by
  induction s with
  | nil => rfl
  | cons c r ih =>
    rw [List.takeWhile_cons]
    simp only [hx c (List.mem_cons_self _ _), if_true,
      ih (fun y hy => hx y (List.mem_cons_of_mem _ hy))]

theorem sscanf_hex_digits (w : Nat) (s : List Char) (hne : s ≠ [])
    (hx : ∀ c ∈ s, isxdigit c = true) :
    sscanf_hex w s =
      some ((if 2 ^ 64 ≤ hex_value s then 2 ^ 64 - 1 else hex_value s) % 2 ^ w) := by
  cases s with
  | nil => exact absurd rfl hne
  | cons c r =>
    have hc := isxdigit_cases c (hx c (List.mem_cons_self _ _))
    have h1 : List.dropWhile isspace (c :: r) = c :: r := by
      rw [List.dropWhile_cons]
      simp only [hc.1, Bool.false_eq_true, if_false]
    have hneg : (match c :: r with
        | '-' :: _ => true
        | _ => false) = false := by
      split
      · rename_i heq
        exact absurd (List.cons.inj heq).1 hc.2.1
      · rfl
    have hs2 : (match c :: r with
        | '-' :: r2 => r2
        | '+' :: r2 => r2
        | _ => c :: r) = c :: r := by
      split
      · rename_i heq
        exact absurd (List.cons.inj heq).1 hc.2.1
      · rename_i heq
        exact absurd (List.cons.inj heq).1 hc.2.2.1
      · rfl
    have hzero : (match c :: r with
        | '0' :: 'x' :: _ => true
        | '0' :: 'X' :: _ => true
        | _ => false) = false := by
      split
      · rename_i heq
        have hr := (List.cons.inj heq).2
        have hmem : 'x' ∈ c :: r := by rw [hr]; simp
        exact absurd rfl (isxdigit_cases 'x' (hx _ hmem)).2.2.2.1
      · rename_i heq
        have hr := (List.cons.inj heq).2
        have hmem : 'X' ∈ c :: r := by rw [hr]; simp
        exact absurd rfl (isxdigit_cases 'X' (hx _ hmem)).2.2.2.2.1
      · rfl
    have hs3 : (match c :: r with
        | '0' :: 'x' :: r2 => r2
        | '0' :: 'X' :: r2 => r2
        | _ => c :: r) = c :: r := by
      split
      · rename_i heq
        have hr := (List.cons.inj heq).2
        have hmem : 'x' ∈ c :: r := by rw [hr]; simp
        exact absurd rfl (isxdigit_cases 'x' (hx _ hmem)).2.2.2.1
      · rename_i heq
        have hr := (List.cons.inj heq).2
        have hmem : 'X' ∈ c :: r := by rw [hr]; simp
        exact absurd rfl (isxdigit_cases 'X' (hx _ hmem)).2.2.2.2.1
      · rfl
    unfold sscanf_hex
    simp only [h1, hneg, hs2, hzero, hs3, takeWhile_isxdigit (c :: r) hx]
    simp

theorem regexec_sub_card (a d : List Char) (ha : a ≠ []) (hd : d ≠ [])
    (hax : ∀ c ∈ a, isxdigit c = true) (hdx : ∀ c ∈ d, isxdigit c = true) :
    regexec REGEX_SUB_CARD_PATTERN (a ++ '.' :: d) = true := by
  have hdrop : ∀ l : List Char, (∀ c ∈ l, isxdigit c = true) →
      List.dropWhile isxdigit (l ++ '.' :: d) = '.' :: d := by
    intro l
    induction l with
    | nil =>
      intro _
      rw [List.nil_append, List.dropWhile_cons]
      simp only [show isxdigit '.' = false by decide, Bool.false_eq_true, if_false]
    | cons x l ih =>
      intro hl
      rw [List.cons_append, List.dropWhile_cons]
      simp only [hl x (List.mem_cons_self _ _), if_true,
        ih (fun y hy => hl y (List.mem_cons_of_mem _ hy))]
  cases a with
  | nil => exact absurd rfl ha
  | cons c r =>
    cases d with
    | nil => exact absurd rfl hd
    | cons d0 dr =>
      have hat : sub_card_pattern_at ((c :: r) ++ '.' :: d0 :: dr) = true := by
        show (isxdigit c && (match List.dropWhile isxdigit ((c :: r) ++ '.' :: d0 :: dr) with
          | '.' :: x :: _ => isxdigit x
          | _ => false)) = true
        rw [hdrop (c :: r) hax]
        simp [hax c (List.mem_cons_self _ _), hdx d0 (List.mem_cons_self _ _)]
      unfold regexec
      rw [if_neg (by decide), if_pos rfl]
      show regex_search sub_card_pattern_at (c :: (r ++ '.' :: d0 :: dr)) = true
      rw [regex_search]
      have hat2 : sub_card_pattern_at (c :: (r ++ '.' :: d0 :: dr)) = true := hat
      rw [hat2]
      rfl

theorem entry_endpoint_hex (a d : List Char) (ha : a ≠ []) (hd : d ≠ [])
    (hax : ∀ c ∈ a, isxdigit c = true) (hdx : ∀ c ∈ d, isxdigit c = true) :
    entry_endpoint (a ++ '.' :: d) =
      some (stored_uint_32 (hex_value a), stored_uint_32 (hex_value d)) := by
  obtain ⟨save, hsave⟩ := strtok_whole d ',' hd (fun c hc => (isxdigit_cases c (hdx c hc)).2.2.2.2.2.2)
  unfold entry_endpoint
  rw [if_pos (regexec_sub_card a d ha hd hax hdx),
    strtok_token a d '.' ha (fun c hc => (isxdigit_cases c (hax c hc)).2.2.2.2.2.1)]
  simp only [Option.bind, sscanf_hex_digits 32 a ha hax, hsave, sscanf_hex_digits 32 d hd hdx]
  rfl

theorem scan_for_card_domains_loop_cons (h : adapter_handler_t) (data : Option (List Nat))
    (d_name : List Char) (rest : List (List Char)) (s : State) :
    scan_for_card_domains_loop h data (d_name :: rest) s =
      match entry_endpoint d_name with
      | none => scan_for_card_domains_loop h data rest s
      | some p =>
        if (h p.1 p.2 data s).1 ≠ CKR_OK then (h p.1 p.2 data s).2
        else scan_for_card_domains_loop h data rest (h p.1 p.2 data s).2 := by
  rw [scan_for_card_domains_loop]
  unfold entry_endpoint
  by_cases hre : regexec REGEX_SUB_CARD_PATTERN d_name = true
  · simp only [hre, if_true]
    cases h1 : strtok d_name '.' with
    | none => rfl
    | some t1 =>
      obtain ⟨tok, save⟩ := t1
      simp only [Option.bind]
      cases h2 : sscanf_hex 32 tok with
      | none => rfl
      | some adapter =>
        simp only []
        cases h3 : strtok save ',' with
        | none => rfl
        | some t2 =>
          obtain ⟨tok2, save2⟩ := t2
          simp only []
          cases h4 : sscanf_hex 32 tok2 with
          | none => rfl
          | some domain => rfl
  · simp only [hre]
    rfl

theorem regex_search_of_at (p : List Char → Bool) (pre l : List Char) (h : p l = true) :
    regex_search p (pre ++ l) = true := by
  induction pre with
  | nil =>
    cases l with
    | nil => exact h
    | cons c r =>
      show regex_search p (c :: r) = true
      rw [regex_search, h]
      rfl
  | cons x pre ih =>
    show regex_search p (x :: (pre ++ l)) = true
    rw [regex_search, ih]
    exact Bool.or_true _

theorem regex_search_at (p : List Char → Bool) (l : List Char)
    (h : regex_search p l = true) : ∃ pre post, l = pre ++ post ∧ p post = true := by
  induction l with
  | nil => exact ⟨[], [], rfl, h⟩
  | cons c r ih =>
    rw [regex_search] at h
    rcases Bool.or_eq_true _ _ ▸ h with h1 | h1
    · exact ⟨[], c :: r, rfl, h1⟩
    · obtain ⟨pre, post, hl, hp⟩ := ih h1
      exact ⟨c :: pre, post, by rw [hl]; rfl, hp⟩

theorem dropWhile_isxdigit_append (a l : List Char) (ha : ∀ c ∈ a, isxdigit c = true) :
    List.dropWhile isxdigit (a ++ l) = List.dropWhile isxdigit l := by
  induction a with
  | nil => rfl
  | cons x a ih =>
    rw [List.cons_append, List.dropWhile_cons]
    simp only [ha x (List.mem_cons_self _ _), if_true,
      ih (fun y hy => ha y (List.mem_cons_of_mem _ hy))]

theorem regexec_sub_card_iff (name : List Char) :
    regexec REGEX_SUB_CARD_PATTERN name = true ↔
      ∃ pre a d post, a ≠ [] ∧ d ≠ [] ∧ (∀ c ∈ a, isxdigit c = true) ∧
        (∀ c ∈ d, isxdigit c = true) ∧ name = pre ++ (a ++ '.' :: (d ++ post)) := by
  have hre : regexec REGEX_SUB_CARD_PATTERN name = regex_search sub_card_pattern_at name := by
    unfold regexec
    rw [if_neg (by decide), if_pos rfl]
  rw [hre]
  constructor
  · intro h
    obtain ⟨pre, post, hl, hp⟩ := regex_search_at _ _ h
    cases post with
    | nil => exact absurd hp (by decide)
    | cons c r =>
      have hp2 : (isxdigit c && (match List.dropWhile isxdigit (c :: r) with
          | '.' :: x :: _ => isxdigit x
          | _ => false)) = true := hp
      rw [Bool.and_eq_true] at hp2
      obtain ⟨hc, hm⟩ := hp2
      have hsplit := List.takeWhile_append_dropWhile isxdigit (c :: r)
      have htake : ∀ y ∈ List.takeWhile isxdigit (c :: r), isxdigit y = true :=
        fun y hy => List.mem_takeWhile_imp hy
      have htne : List.takeWhile isxdigit (c :: r) ≠ [] := by
        rw [List.takeWhile_cons]
        simp only [hc, if_true]
        exact List.cons_ne_nil _ _
      revert hm hsplit
      generalize List.dropWhile isxdigit (c :: r) = dw
      generalize List.takeWhile isxdigit (c :: r) = tw at htake htne
      intro hm hsplit
      split at hm
      · rename_i x rest2
        refine ⟨pre, tw, [x], rest2, htne, List.cons_ne_nil _ _, htake, ?_, ?_⟩
        · intro y hy
          rw [List.mem_singleton] at hy
          rw [hy]
          exact hm
        · rw [hl, ← hsplit]
          rfl
      · exact absurd hm (by decide)
  · rintro ⟨pre, a, d, post, ha, hd, hax, hdx, hname⟩
    rw [hname]
    refine regex_search_of_at _ _ _ ?_
    cases a with
    | nil => exact absurd rfl ha
    | cons c r =>
      cases d with
      | nil => exact absurd rfl hd
      | cons d0 dr =>
        show (isxdigit c && (match List.dropWhile isxdigit
            ((c :: r) ++ '.' :: ((d0 :: dr) ++ post)) with
          | '.' :: x :: _ => isxdigit x
          | _ => false)) = true
        rw [dropWhile_isxdigit_append _ _ hax, List.dropWhile_cons]
        simp only [show isxdigit '.' = false by decide, Bool.false_eq_true, if_false]
        simp [hax c (List.mem_cons_self _ _), hdx d0 (List.mem_cons_self _ _)]

theorem traced_scan_for_card_domains_loop_calls (h : adapter_handler_t)
    (data : Option (List Nat)) (hok : ∀ a d s, (h a d data s).1 = CKR_OK)
    (entries : List (List Char)) :
    ∀ s : State, (scan_for_card_domains_loop (traced h) data entries s).calls =
      s.calls ++ (entries.filterMap entry_endpoint).map (fun p => (p.1, p.2, CKR_OK)) := by
  induction entries with
  | nil => intro s; simp [scan_for_card_domains_loop]
  | cons d_name rest ih =>
    intro s
    rw [scan_for_card_domains_loop_cons]
    cases hep : entry_endpoint d_name with
    | none =>
      simp only []
      rw [ih s, List.filterMap_cons, hep]
    | some p =>
      have h1 : (traced h p.1 p.2 data s).1 = CKR_OK := hok p.1 p.2 s
      simp only []
      rw [if_neg (not_not.mpr h1), ih, List.filterMap_cons, hep]
      simp [traced, hok p.1 p.2 s]

/-- Counterexample to C18: the entry `100000000.1` names the adapter 0x100000000, yet
the handler is invoked with adapter 0, the low 32 bits of that value; the
entry `10000000000000000.1` names the adapter 2 ^ 64 and the handler would get
0xFFFFFFFF, since the conversion saturates before the value is cut; and among
the entries `00.0001`, `00.0002` a handler that fails on domain 1 is never
invoked on `00.0002`. -/
theorem entry_value_is_cut_and_failure_ends_scan :
    hex_value "100000000".toList = 4294967296 ∧
    entry_endpoint "100000000.1".toList = some (0, 1) ∧
    (scan_for_card_domains_loop (traced (failing_handler 99)) none ["100000000.1".toList]
        State.init).calls = [(0, 1, CKR_OK)] ∧
    hex_value "10000000000000000".toList = 2 ^ 64 ∧
    entry_endpoint "10000000000000000.1".toList = some (4294967295, 1) ∧
    (scan_for_card_domains_loop (traced (failing_handler 1)) none
        ["00.0001".toList, "00.0002".toList] State.init).calls =
      [(0, 1, CKR_FUNCTION_FAILED)] := by
  decide

/-- C18, amended: when the scan of an accepted adapter reaches an entry named
`<a>.<d>` with `<a>` and `<d>` non-empty strings of hexadecimal digits, the
handler is invoked once on it, with the values that `sscanf` stores for `<a>`
and `<d>` read as hexadecimal: the value itself when it is below 2 ^ 32, its
low 32 bits when it is below 2 ^ 64, and 0xFFFFFFFF when it is 2 ^ 64 or more
(the conversion saturates at `ULONG_MAX` before the result is cut to 32
bits); a non-OK result ends the scan of this adapter, so that the entries
after it are not visited. An entry is skipped without an invocation when its
name does not contain the pattern, that is a non-empty run of hexadecimal
digits, a dot and a hexadecimal digit. With a handler that never fails the
invocations are the endpoints of the entries, once each in directory order.
For the hierarchy with `card01` (online, EP11 bit set) and its single
subdirectory `01.0002`, discovery invokes the handler on (0x01, 0x0002) only. -/
theorem domain_entries (h : adapter_handler_t) (data : Option (List Nat))
    (rest : List (List Char)) (s : State) :
    (∀ a d : List Char, a ≠ [] → d ≠ [] → (∀ c ∈ a, isxdigit c = true) →
      (∀ c ∈ d, isxdigit c = true) →
      scan_for_card_domains_loop h data ((a ++ '.' :: d) :: rest) s =
        if (h (stored_uint_32 (hex_value a)) (stored_uint_32 (hex_value d)) data s).1 ≠ CKR_OK
        then (h (stored_uint_32 (hex_value a)) (stored_uint_32 (hex_value d)) data s).2
        else scan_for_card_domains_loop h data rest
          (h (stored_uint_32 (hex_value a)) (stored_uint_32 (hex_value d)) data s).2) ∧
    (∀ v, v < 2 ^ 32 → stored_uint_32 v = v) ∧
    (∀ v, v < 2 ^ 64 → stored_uint_32 v = v % 2 ^ 32) ∧
    (∀ v, 2 ^ 64 ≤ v → stored_uint_32 v = 2 ^ 32 - 1) ∧
    (∀ name, regexec REGEX_SUB_CARD_PATTERN name = false →
      scan_for_card_domains_loop h data (name :: rest) s =
        scan_for_card_domains_loop h data rest s) ∧
    (∀ name, regexec REGEX_SUB_CARD_PATTERN name = true ↔
      ∃ pre a d post, a ≠ [] ∧ d ≠ [] ∧ (∀ c ∈ a, isxdigit c = true) ∧
        (∀ c ∈ d, isxdigit c = true) ∧ name = pre ++ (a ++ '.' :: (d ++ post))) ∧
    ((∀ a d s0, (h a d data s0).1 = CKR_OK) →
      ∀ entries, (scan_for_card_domains_loop (traced h) data entries s).calls =
        s.calls ++ (entries.filterMap entry_endpoint).map (fun p => (p.1, p.2, CKR_OK))) ∧
    (handle_all_ep11_cards scenario_env any_target (traced (failing_handler 99)) none
        State.init).2.calls = [(1, 2, CKR_OK)] := by
  refine ⟨?_, ?_, ?_, ?_, ?_, regexec_sub_card_iff, ?_, by decide⟩
  · intro a d ha hd hax hdx
    rw [scan_for_card_domains_loop_cons, entry_endpoint_hex a d ha hd hax hdx]
  · intro v hv
    unfold stored_uint_32
    rw [if_neg (by omega), Nat.mod_eq_of_lt hv]
  · intro v hv
    unfold stored_uint_32
    rw [if_neg (by omega)]
  · intro v hv
    unfold stored_uint_32
    rw [if_pos hv]
    decide
  · intro name hre
    rw [scan_for_card_domains_loop_cons]
    unfold entry_endpoint
    simp only [hre, Bool.false_eq_true, if_false]
  · intro hok entries
    exact traced_scan_for_card_domains_loop_calls h data hok entries s

/-- Witness of C18, amended: the entry `01.0002` followed by `online`, with a
recording handler that never fails. -/
theorem domain_entries_witness :
    scan_for_card_domains_loop (traced (failing_handler 99)) none
        (("01".toList ++ '.' :: "0002".toList) :: ["online".toList]) State.init =
      (if (traced (failing_handler 99) (stored_uint_32 (hex_value "01".toList))
            (stored_uint_32 (hex_value "0002".toList)) none State.init).1 ≠ CKR_OK
        then (traced (failing_handler 99) (stored_uint_32 (hex_value "01".toList))
            (stored_uint_32 (hex_value "0002".toList)) none State.init).2
        else scan_for_card_domains_loop (traced (failing_handler 99)) none ["online".toList]
          (traced (failing_handler 99) (stored_uint_32 (hex_value "01".toList))
            (stored_uint_32 (hex_value "0002".toList)) none State.init).2) ∧
    stored_uint_32 (hex_value "01".toList) = 1 ∧
    stored_uint_32 (hex_value "0002".toList) = 2 :=
  ⟨(domain_entries (traced (failing_handler 99)) none ["online".toList] State.init).1
      "01".toList "0002".toList (by decide) (by decide) (by decide) (by decide),
    by decide, by decide⟩

end Pkcsep11Session
